import Mathlib

/-!
Shallow embedding of the DICOM SEG mask decoder (`src/src/image/maskFactory.js`)
and the 3x3 matrix module (`src/unnamed/part_000`) over exact rational
arithmetic.  Euclidean distances are represented by their squares so that every
quantity stays rational; every comparison on a distance is mapped to the
equivalent comparison on squared values.
-/

namespace MedImg

/-- JS Number.EPSILON: the gap between 1 and the next double, 2^-52. -/
def numberEpsilon : ℚ := 1 / 2 ^ 52

/-- REAL_WORLD_EPSILON from the matrix module: 1e-4. -/
def realWorldEpsilon : ℚ := 1 / 10000

/-- A parsed DICOM value as the duck-typed JS code sees it: a number, a
string, the undefined value, an array of values, or a sequence item (a keyed
store mapping a tag key to a sub-element's value list, the only field of a
data element that the decoder reads). -/
inductive DVal where
  | num (q : ℚ)
  | str (s : String)
  | undef
  | arr (vs : List DVal)
  | item (fields : List (String × DVal))

/-- JS strict equality `===` as the decoder uses it on tag values: numbers and
strings compare by value, `undefined` equals itself, and two distinct array or
item literals are reference-unequal (the decoder never compares a value
against itself by reference). -/
def jsStrictEq : DVal → DVal → Bool
  | .num a, .num b => decide (a = b)
  | .str a, .str b => decide (a = b)
  | .undef, .undef => true
  | _, _ => false

/-- A keyed tag store: tag key to the element's value list (an element is
`\x7bvalue: [...]\x7d` in the source; we identify it with its value list,
wrapped as an array value). -/
abbrev DataElements := List (String × DVal)

/-- Store lookup, `dataElements[key]`: `none` models JS `undefined`. -/
def lookupEl : DataElements → String → Option DVal
  | [], _ => none
  | (k', v) :: rest, k => if k' = k then some v else lookupEl rest k

/-- The value list of an element (an element is modelled as `.arr vs`). -/
def elValues : DVal → List DVal
  | .arr vs => vs
  | _ => []

/-- JS `x.value[0]` on an element: first value, undefined when absent. -/
def elVal0 (v : DVal) : DVal := (elValues v).getD 0 (.undef)

/-- JS `parseFloat` restricted to the numeric values the decoder feeds it. -/
def parseFloatD : DVal → ℚ
  | .num q => q
  | _ => 0

/-- JS `parseInt(x, 10)` restricted to the numeric values used here
(truncation toward zero). -/
def parseIntD : DVal → ℚ
  | .num q => ((q.num / (q.den : ℤ) : ℤ) : ℚ)
  | _ => 0

/-- Modelled from the spec: the generic 3D vector primitive (source file
`src/math/vector.js` is not part of src/); only the components and the cross
product are used by the decoder. -/
structure Vector3D where
  x : ℚ
  y : ℚ
  z : ℚ
deriving DecidableEq, Repr

/-- Modelled from the spec: the generic 3D point primitive (source file
`src/math/point.js` is not part of src/); `getDistance` is the Euclidean
distance, represented here by its square `distSq` so that it stays rational. -/
structure Point3D where
  x : ℚ
  y : ℚ
  z : ℚ
deriving DecidableEq, Repr

/-- Cross product of two vectors, as used to derive the slice normal. -/
def Vector3D.crossProduct (a b : Vector3D) : Vector3D :=
  ⟨a.y * b.z - a.z * b.y, a.z * b.x - a.x * b.z, a.x * b.y - a.y * b.x⟩

/-- Squared Euclidean distance between two points.  `p.getDistance q` in the
source is `Real.sqrt (distSq p q)`; every comparison the decoder performs on
distances is translated to the equivalent comparison on squares. -/
def distSq (p q : Point3D) : ℚ :=
  (p.x - q.x) ^ 2 + (p.y - q.y) ^ 2 + (p.z - q.z) ^ 2

/-- `isSimilar` from the matrix module: absolute difference below the
tolerance (`Number.EPSILON` when not provided). -/
def isSimilar (a b : ℚ) (tol : ℚ := numberEpsilon) : Bool :=
  decide (|a - b| < tol)

/-- Immutable 3x3 matrix, row-major; the source stores the 9 values in an
array and reads them through `get(row, col) = values[row * 3 + col]`. -/
structure Matrix33 where
  m00 : ℚ
  m01 : ℚ
  m02 : ℚ
  m10 : ℚ
  m11 : ℚ
  m12 : ℚ
  m20 : ℚ
  m21 : ℚ
  m22 : ℚ
deriving DecidableEq, Repr

/-- `Matrix33.get(row, col)`; out-of-range access is a programming error in
the source (it yields undefined) and is never performed by the decoder. -/
def Matrix33.get (m : Matrix33) : Nat → Nat → ℚ
  | 0, 0 => m.m00
  | 0, 1 => m.m01
  | 0, 2 => m.m02
  | 1, 0 => m.m10
  | 1, 1 => m.m11
  | 1, 2 => m.m12
  | 2, 0 => m.m20
  | 2, 1 => m.m21
  | 2, 2 => m.m22
  | _, _ => 0

/-- `Matrix33.equals(rhs, p)`: element-wise tolerance comparison, with the
source's row/column double loop unrolled. -/
def Matrix33.equals (m rhs : Matrix33) (p : ℚ := numberEpsilon) : Bool :=
  isSimilar m.m00 rhs.m00 p && isSimilar m.m01 rhs.m01 p &&
  isSimilar m.m02 rhs.m02 p && isSimilar m.m10 rhs.m10 p &&
  isSimilar m.m11 rhs.m11 p && isSimilar m.m12 rhs.m12 p &&
  isSimilar m.m20 rhs.m20 p && isSimilar m.m21 rhs.m21 p &&
  isSimilar m.m22 rhs.m22 p

/-- `Matrix33.multiply(rhs)`: row-times-column products, with the source's
triple loop unrolled into the nine entries it pushes. -/
def Matrix33.multiply (m rhs : Matrix33) : Matrix33 where
  m00 := m.m00 * rhs.m00 + m.m01 * rhs.m10 + m.m02 * rhs.m20
  m01 := m.m00 * rhs.m01 + m.m01 * rhs.m11 + m.m02 * rhs.m21
  m02 := m.m00 * rhs.m02 + m.m01 * rhs.m12 + m.m02 * rhs.m22
  m10 := m.m10 * rhs.m00 + m.m11 * rhs.m10 + m.m12 * rhs.m20
  m11 := m.m10 * rhs.m01 + m.m11 * rhs.m11 + m.m12 * rhs.m21
  m12 := m.m10 * rhs.m02 + m.m11 * rhs.m12 + m.m12 * rhs.m22
  m20 := m.m20 * rhs.m00 + m.m21 * rhs.m10 + m.m22 * rhs.m20
  m21 := m.m20 * rhs.m01 + m.m21 * rhs.m11 + m.m22 * rhs.m21
  m22 := m.m20 * rhs.m02 + m.m21 * rhs.m12 + m.m22 * rhs.m22

/-- `Matrix33.multiplyArray3D` on a length-3 array (the source throws on any
other length; the decoder only passes 3-component positions). -/
def Matrix33.multiplyArray3D (m : Matrix33) (a : List ℚ) : List ℚ :=
  let a0 := a.getD 0 0
  let a1 := a.getD 1 0
  let a2 := a.getD 2 0
  [m.m00 * a0 + m.m01 * a1 + m.m02 * a2,
   m.m10 * a0 + m.m11 * a1 + m.m12 * a2,
   m.m20 * a0 + m.m21 * a1 + m.m22 * a2]

/-- `getMatrixInverse(m)`: closed-form adjugate/determinant inversion,
`none` when the determinant is exactly zero. -/
def getMatrixInverse (m : Matrix33) : Option Matrix33 :=
  let a1212 := m.m11 * m.m22 - m.m12 * m.m21
  let a2012 := m.m12 * m.m20 - m.m10 * m.m22
  let a0112 := m.m10 * m.m21 - m.m11 * m.m20
  let det := m.m00 * a1212 + m.m01 * a2012 + m.m02 * a0112
  if det = 0 then none
  else
    let d := 1 / det
    some ⟨d * a1212, d * (m.m02 * m.m21 - m.m01 * m.m22),
          d * (m.m01 * m.m12 - m.m02 * m.m11),
          d * a2012, d * (m.m00 * m.m22 - m.m02 * m.m20),
          d * (m.m02 * m.m10 - m.m00 * m.m12),
          d * a0112, d * (m.m01 * m.m20 - m.m00 * m.m21),
          d * (m.m00 * m.m11 - m.m01 * m.m10)⟩

/-- The determinant expression of `getMatrixInverse`. -/
def matrixDet (m : Matrix33) : ℚ :=
  m.m00 * (m.m11 * m.m22 - m.m12 * m.m21) +
  m.m01 * (m.m12 * m.m20 - m.m10 * m.m22) +
  m.m02 * (m.m10 * m.m21 - m.m11 * m.m20)

/-- `Matrix33.getInverse()`: the cached lazy inverse is purely
`getMatrixInverse` of the receiver. -/
def Matrix33.getInverse (m : Matrix33) : Option Matrix33 :=
  getMatrixInverse m

/-- `getIdentityMat33()`. -/
def getIdentityMat33 : Matrix33 :=
  ⟨1, 0, 0, 0, 1, 0, 0, 0, 1⟩

/-- The per-vector step of `getVectorStringLPS`: the source's 3-iteration
loop over the remaining absolute components, appending the letter of the
strictly dominant axis above the threshold and zeroing it, and breaking as
soon as no axis strictly dominates. -/
def lpsLoop (ox oy oz : String) : Nat → Vector3D → String
  | 0, _ => ""
  | n + 1, abs =>
    if abs.x > 1 / 10000 ∧ abs.x > abs.y ∧ abs.x > abs.z then
      ox ++ lpsLoop ox oy oz n ⟨0, abs.y, abs.z⟩
    else if abs.y > 1 / 10000 ∧ abs.y > abs.x ∧ abs.y > abs.z then
      oy ++ lpsLoop ox oy oz n ⟨abs.x, 0, abs.z⟩
    else if abs.z > 1 / 10000 ∧ abs.z > abs.x ∧ abs.z > abs.y then
      oz ++ lpsLoop ox oy oz n ⟨abs.x, abs.y, 0⟩
    else ""

/-- `getVectorStringLPS(vector)`: sign letters from the original components,
then the dominance loop on the absolute values. -/
def getVectorStringLPS (v : Vector3D) : String :=
  let ox := if v.x < 0 then "R" else "L"
  let oy := if v.y < 0 then "A" else "P"
  let oz := if v.z < 0 then "I" else "S"
  lpsLoop ox oy oz 3 ⟨|v.x|, |v.y|, |v.z|⟩

/-- `getOrientationStringLPS(matrix)`: the vector codes of the three column
vectors, concatenated. -/
def getOrientationStringLPS (m : Matrix33) : String :=
  getVectorStringLPS ⟨m.m00, m.m10, m.m20⟩ ++
  getVectorStringLPS ⟨m.m01, m.m11, m.m21⟩ ++
  getVectorStringLPS ⟨m.m02, m.m12, m.m22⟩

/-- The ways a decode aborts: one constructor per throw site of the decoder,
plus `typeError` for the JS TypeError raised by dereferencing an undefined
value, and `fuelExhausted`, the embedding's stand-in for a source loop that
never terminates. -/
inductive DecodeError where
  | missingOrEmpty (name : String)
  | cannotCompareArrayAndNonArray
  | unsupportedTagValue (name : String)
  | missingRows
  | missingColumns
  | bufferFramesMismatch
  | unsupportedDimOrgSeqLength
  | unsupportedDimIndexSeqLength
  | unknownDimOrg
  | unsupportedLastDimIndex
  | missingSegmentSequence
  | missingPerFrameSequence
  | perFrameCountMismatch
  | multiOrientation
  | multiResolution
  | missingSpacingForSeg
  | missingOrientationForSeg
  | intermediatePosDivergence
  | typeError (what : String)
  | fuelExhausted
deriving DecidableEq, Repr

/-- A DICOM tag definition `\x7bname, tag, type, enum\x7d` from the required
tag table; `type` is a tag value itself (the table stores the strings "1" and
"3"). -/
structure TagDefinition where
  name : String
  tag : String
  type : DVal
  enum : List DVal

/-- `arraySortEquals` of `src/utils/array.js` (file not in src/).  Modelled
from the spec: order-insensitive equality of the two value sequences, i.e.
the sorted copies are element-wise strictly equal; equivalently the two lists
are equal as multisets under JS strict equality.  Decided by counting, which
agrees with sort-and-compare for the scalar lists the decoder passes. -/
def arraySortEquals (a b : List DVal) : Bool :=
  decide (a.length = b.length) &&
  a.all (fun x => decide (a.countP (fun y => jsStrictEq y x) =
    b.countP (fun y => jsStrictEq y x)))

/-- The source's loop over an accepted-value set for an array-valued tag:
a non-array accepted value throws, a match breaks out with success, and an
exhausted list reports no match. -/
def includesArr (tagValue : List DVal) : List DVal → Except DecodeError Bool
  | [] => pure false
  | .arr evs :: rest =>
    if arraySortEquals evs tagValue then pure true
    else includesArr tagValue rest
  | _ :: _ => throw .cannotCompareArrayAndNonArray

/-- The value-comparison half of `checkTag`: the tag value is the single
value of the element or the whole value array; arrays are compared by
order-insensitive equality against array entries of the accepted set,
scalars by strict-equality membership. -/
def checkTagValue (tagDefinition : TagDefinition) (el : DVal) :
    Except DecodeError Unit :=
  let tagValue : DVal :=
    match elValues el with
    | [v] => v
    | vs => .arr vs
  match tagValue with
  | .arr tvs =>
    match includesArr tvs tagDefinition.enum with
    | .error e => throw e
    | .ok includes =>
      if !includes then throw (.unsupportedTagValue tagDefinition.name)
      else pure ()
  | v =>
    if !(tagDefinition.enum.any (fun e => jsStrictEq e v)) then
      throw (.unsupportedTagValue tagDefinition.name)
    else pure ()

/-- `checkTag(dataElements, tagDefinition)`: presence is only enforced when
the definition's `type` is strictly equal to the number 1 or 2 (the table's
types are the strings "1"/"3", which never satisfy this numeric comparison);
a present value is compared against the accepted set. -/
def checkTag (dataElements : DataElements) (tagDefinition : TagDefinition) :
    Except DecodeError Unit :=
  let element := lookupEl dataElements tagDefinition.tag
  if jsStrictEq tagDefinition.type (.num 1) ||
      jsStrictEq tagDefinition.type (.num 2) then
    match element with
    | none => throw (.missingOrEmpty tagDefinition.name)
    | some el => checkTagValue tagDefinition el
  else
    match element with
    | none => pure ()
    | some el => checkTagValue tagDefinition el

/-- `RequiredDicomSegTags`: the fixed table gating every decode. -/
def RequiredDicomSegTags : List TagDefinition :=
  [⟨"TransferSyntaxUID", "00020010", .str "1", [.str "1.2.840.10008.1.2.1"]⟩,
   ⟨"MediaStorageSOPClassUID", "00020002", .str "1",
     [.str "1.2.840.10008.5.1.4.1.1.66.4"]⟩,
   ⟨"SOPClassUID", "00020002", .str "1",
     [.str "1.2.840.10008.5.1.4.1.1.66.4"]⟩,
   ⟨"Modality", "00080060", .str "1", [.str "SEG"]⟩,
   ⟨"SegmentationType", "00620001", .str "1", [.str "BINARY"]⟩,
   ⟨"DimensionOrganizationType", "00209311", .str "3", [.str "3D"]⟩,
   ⟨"ImageType", "00080008", .str "1",
     [.arr [.str "DERIVED", .str "PRIMARY"]]⟩,
   ⟨"SamplesPerPixel", "00280002", .str "1", [.num 1]⟩,
   ⟨"PhotometricInterpretation", "00280004", .str "1", [.str "MONOCHROME2"]⟩,
   ⟨"PixelRepresentation", "00280103", .str "1", [.num 0]⟩,
   ⟨"BitsAllocated", "00280100", .str "1", [.num 1]⟩,
   ⟨"BitsStored", "00280101", .str "1", [.num 1]⟩,
   ⟨"HighBit", "00280102", .str "1", [.num 0]⟩]

/-- `getDefaultDicomSegJson()`: maps each table entry's name to the first
value of its accepted set. -/
def getDefaultDicomSegJson : List (String × DVal) :=
  RequiredDicomSegTags.map (fun reqTag => (reqTag.name, reqTag.enum.getD 0 .undef))

/-- A dimension index entry as collected by `getDimensionOrganization`. -/
structure DimIndex where
  dimensionOrganizationUID : DVal
  dimensionIndexPointer : DVal
  dimensionDescriptionLabel : Option DVal

/-- The result of `getDimensionOrganization`. -/
structure DimOrganization where
  organizationUID : DVal
  indices : List DimIndex

/-- Required sub-element access `item[key].value`: a missing key makes the
source dereference `undefined` and raise a TypeError. -/
def reqField (v : DVal) (key : String) : Except DecodeError DVal :=
  match v with
  | .item fields =>
    match lookupEl fields key with
    | some x => pure x
    | none => throw (.typeError key)
  | _ => throw (.typeError key)

/-- Optional sub-element access `item[key]` (undefined when absent). -/
def optField (v : DVal) (key : String) : Option DVal :=
  match v with
  | .item fields => lookupEl fields key
  | _ => none

/-- The loop over the two dimension-index entries: each must carry the
organization's UID; returns the collected indices (the last one's pointer is
the loop's final `indexPointer`). -/
def readDimIndices (orgUID : DVal) : List DVal → Except DecodeError (List DimIndex)
  | [] => pure []
  | entry :: rest => do
    let indexOrg := elVal0 (← reqField entry "00209164")
    if !jsStrictEq indexOrg orgUID then
      throw .unknownDimOrg
    else
      let indexPointer := elVal0 (← reqField entry "00209165")
      let lbl := (optField entry "00209421").map elVal0
      let tail ← readDimIndices orgUID rest
      pure (⟨indexOrg, indexPointer, lbl⟩ :: tail)

/-- `getDimensionOrganization(dataElements)`: exactly one organization entry,
and an optional 2-entry index sequence whose entries carry the organization's
UID and whose last pointer is the image-position tag. -/
def getDimensionOrganization (dataElements : DataElements) :
    Except DecodeError DimOrganization := do
  match lookupEl dataElements "00209221" with
  | none => throw DecodeError.unsupportedDimOrgSeqLength
  | some orgSqEl =>
    if (elValues orgSqEl).length ≠ 1 then
      throw DecodeError.unsupportedDimOrgSeqLength
    else
      let orgUID := elVal0 (← reqField (elVal0 orgSqEl) "00209164")
      match lookupEl dataElements "00209222" with
      | none => pure ⟨orgUID, []⟩
      | some indexSqElem =>
        let indexSq := elValues indexSqElem
        if indexSq.length ≠ 2 then
          throw DecodeError.unsupportedDimIndexSeqLength
        else
          let indices ← readDimIndices orgUID indexSq
          let indexPointer :=
            ((indices.getLast?).map (fun i => i.dimensionIndexPointer)).getD .undef
          if !jsStrictEq indexPointer (.str "(0020,0032)") then
            throw DecodeError.unsupportedLastDimIndex
          else
            pure ⟨orgUID, indices⟩

/-- Modelled from the spec: `getImage2DSize` of
`src/dicom/dicomElementsWrapper.js` (not in src/): the 2D size read from the
rows and columns tags, returned as (columns, rows). -/
def getImage2DSize (dataElements : DataElements) :
    Except DecodeError (Nat × Nat) := do
  match lookupEl dataElements "00280010", lookupEl dataElements "00280011" with
  | some rowsEl, some colsEl =>
    pure ((parseFloatD (elVal0 colsEl)).num.toNat,
      (parseFloatD (elVal0 rowsEl)).num.toNat)
  | none, _ => throw .missingRows
  | _, none => throw .missingColumns

/-- Modelled from the spec: `getSpacingFromMeasure` of
`src/dicom/dicomElementsWrapper.js` (not in src/): pixel spacing (two values)
plus, when present, the spacing-between-slices or slice-thickness tag as the
third component; `none` when the pixel spacing tag is absent. -/
def getSpacingFromMeasure (measureItem : DVal) : Option (List ℚ) :=
  match optField measureItem "00280030" with
  | none => none
  | some pixelSpacing =>
    let base := (elValues pixelSpacing).take 2 |>.map parseFloatD
    match optField measureItem "00180088" with
    | some sbs => some (base ++ [parseFloatD (elVal0 sbs)])
    | none =>
      match optField measureItem "00180050" with
      | some st => some (base ++ [parseFloatD (elVal0 st)])
      | none => some base

/-- A segment definition: number and scalar or RGB display value. -/
structure Segment where
  number : DVal
  displayValue : Option DVal
  displayRGBValue : Option (DVal × DVal × DVal)

/-- Modelled from the spec: `getSegment` of `src/dicom/dicomSegment.js` (not
in src/): the segment number plus either a scalar display value or an RGB
display triple. -/
def getSegment (segItem : DVal) : Except DecodeError Segment := do
  let number := elVal0 (← reqField segItem "00620004")
  let displayValue := (optField segItem "0062000C").map elVal0
  let displayRGBValue :=
    (optField segItem "0062000D").map (fun el =>
      let vs := elValues el
      (vs.getD 0 .undef, vs.getD 1 .undef, vs.getD 2 .undef))
  pure ⟨number, displayValue, displayRGBValue⟩

/-- The segment-sequence loop of `create`: `getSegment` over every item. -/
def getSegments : List DVal → Except DecodeError (List Segment)
  | [] => pure []
  | it :: rest => do
    let seg ← getSegment it
    let tail ← getSegments rest
    pure (seg :: tail)

/-- Per-frame information: referenced segment number, parsed image position,
and optional per-frame orientation and spacing. -/
structure FrameInfo where
  refSegmentNumber : DVal
  imagePosPat : List ℚ
  imageOrientationPatient : Option (List DVal)
  spacing : Option (List ℚ)

/-- Modelled from the spec: `getSegmentFrameInfo` of
`src/dicom/dicomSegmentFrameInfo.js` (not in src/): reads the plane position
(parsed to numbers), the referenced segment number, and the optional
per-frame plane orientation and pixel measures. -/
def getSegmentFrameInfo (frameItem : DVal) : Except DecodeError FrameInfo := do
  let planePosSq ← reqField frameItem "00209113"
  let imagePosPat :=
    (elValues (← reqField (elVal0 planePosSq) "00200032")).map parseFloatD
  let segIdSq ← reqField frameItem "0062000A"
  let refSegmentNumber := elVal0 (← reqField (elVal0 segIdSq) "0062000B")
  let imageOrientationPatient ←
    match optField frameItem "00209116" with
    | none => pure none
    | some planeOrientSq =>
      pure (some (elValues (← reqField (elVal0 planeOrientSq) "00200037")))
  let spacing :=
    match optField frameItem "00289110" with
    | none => none
    | some measuresSq => getSpacingFromMeasure (elVal0 measuresSq)
  pure ⟨refSegmentNumber, imagePosPat, imageOrientationPatient, spacing⟩

/-- The per-frame functional-group loop of `create`: `getSegmentFrameInfo`
over every item. -/
def getFrameInfos : List DVal → Except DecodeError (List FrameInfo)
  | [] => pure []
  | it :: rest => do
    let fi ← getSegmentFrameInfo it
    let tail ← getFrameInfos rest
    pure (fi :: tail)

/-- `point3DFromArray(arr)`. -/
def point3DFromArray (arr : List ℚ) : Point3D :=
  ⟨arr.getD 0 0, arr.getD 1 0, arr.getD 2 0⟩

/-- Modelled from the spec: the geometry object of `src/image/geometry.js`
(not in src/): first-slice origin, per-axis size, spacing, orientation and
the per-slice origin list. -/
structure Geometry where
  origin : Point3D
  size : List Nat
  spacing : List ℚ
  orientation : Matrix33
  origins : List Point3D

/-- Modelled from the spec: `Geometry.indexToWorld` on an index `(0, 0, k)`:
the world point lies on the line through the origin along the orientation's
third column (the slice normal), at `k` times the slice spacing — "every
synthesized position lies on the line defined by the first position and the
orientation normal, at a multiple of the slice spacing". -/
def indexToWorldZ (geo : Geometry) (k : Nat) : Point3D :=
  let sz := geo.spacing.getD 2 0
  ⟨geo.origin.x + k * sz * geo.orientation.m02,
   geo.origin.y + k * sz * geo.orientation.m12,
   geo.origin.z + k * sz * geo.orientation.m22⟩

/-- Modelled from the spec: `getSliceGeometrySpacing` of
`src/image/geometry.js` (not in src/): the inter-slice spacing inferred from
the sorted positions' geometric projection — positions are projected onto the
slice axis through the orientation inverse, and the inferred spacing is the
smallest absolute difference between consecutive projections ("slice spacing
is derived from observed geometry whenever possible"); undefined for fewer
than two positions. -/
def getSliceGeometrySpacing (origins : List Point3D) (orientation : Matrix33) :
    Option ℚ :=
  if origins.length ≤ 1 then none
  else
    match orientation.getInverse with
    | none => none
    | some inv =>
      let zs := origins.map (fun p => (inv.multiplyArray3D [p.x, p.y, p.z]).getD 2 0)
      let diffs := (zs.zip (zs.drop 1)).map (fun pr => |pr.2 - pr.1|)
      match diffs with
      | [] => none
      | d :: ds => some (ds.foldl min d)

/-- Stable insertion of a position into a list sorted in ascending key order;
an element with an equal key stays before the inserted one, matching the
stability of the source's sort. -/
def insertByKey (key : List ℚ → ℚ) (x : List ℚ) :
    List (List ℚ) → List (List ℚ)
  | [] => [x]
  | y :: ys => if key x < key y then x :: y :: ys else y :: insertByKey key x ys

/-- The sort of `framePosPats` by `getComparePosPat(orientation)`: ascending
in the third component of the inverse-orientation image of the position. -/
def sortByKey (key : List ℚ → ℚ) (l : List (List ℚ)) : List (List ℚ) :=
  l.foldl (fun acc x => insertByKey key x acc) []

/-- The scan over frame infos: de-duplicate positions in first-seen order,
establish the reference orientation and spacing, and reject differing
per-frame orientations (order-insensitive comparison) or spacings. -/
def scanFrameInfos :
    List FrameInfo → List (List ℚ) → Option (List DVal) → Option (List ℚ) →
    Except DecodeError (List (List ℚ) × Option (List DVal) × Option (List ℚ))
  | [], pps, o, s => pure (pps, o, s)
  | fi :: rest, pps, o, s => do
    let pps := if fi.imagePosPat ∈ pps then pps
      else pps ++ [fi.imagePosPat]
    let o ← match fi.imageOrientationPatient, o with
      | none, o => pure o
      | some fo, none => pure (some fo)
      | some fo, some curr =>
        if arraySortEquals curr fo then pure (some curr)
        else throw DecodeError.multiOrientation
    let s ← match fi.spacing, s with
      | none, s => pure s
      | some fs, none => pure (some fs)
      | some fs, some curr =>
        if curr = fs then pure (some curr)
        else throw DecodeError.multiResolution
    scanFrameInfos rest pps o s

/-- The origin distance test `isNotSmall`, on squared distances: the source
compares the distance against `REAL_WORLD_EPSILON`, then 10 times and 100
times it (the two intermediate bands only emit warnings), so the returned
value is the comparison against the widest threshold. -/
def isNotSmallSq (value : ℚ) : Bool :=
  let res := decide (value > realWorldEpsilon ^ 2)
  if res then
    let res := decide (value > (realWorldEpsilon * 10) ^ 2)
    if !res then res
    else decide (value > (realWorldEpsilon * 100) ^ 2)
  else res

/-- The inner while loop that synthesizes intermediate positions between one
real position and the next: while the (squared) distance from the current
grid point to the next real origin is not small, push the current point and
step one slice forward; a new distance exceeding the distance recorded before
the loop (`distPrevious`, set once per pair) aborts the decode.  `fuel`
bounds the iteration count (the source loop has no bound); the returned
third component is the list of successive squared distances, recorded for
stating the convergence property. -/
def fillPairLoop (geo : Geometry) (frameOrigin : Point3D) (dPrevSq : ℚ) :
    Nat → Nat → ℚ → Except DecodeError (List (List ℚ) × Nat × List ℚ)
  | fuel, sliceIndex, dSq =>
    if isNotSmallSq dSq then
      match fuel with
      | 0 => throw .fuelExhausted
      | fuel + 1 =>
        let point := indexToWorldZ geo sliceIndex
        let sliceIndex' := sliceIndex + 1
        let point' := indexToWorldZ geo sliceIndex'
        let dSq' := distSq frameOrigin point'
        if dSq' > dPrevSq then throw .intermediatePosDivergence
        else do
          let (ps, kf, ds) ←
            fillPairLoop geo frameOrigin dPrevSq fuel sliceIndex' dSq'
          pure ([point.x, point.y, point.z] :: ps, kf, dSq' :: ds)
    else pure ([], sliceIndex, [])

/-- The outer loop over consecutive sorted positions: for each pair, run the
intermediate-position loop and then append the real position; the slice index
accumulates across pairs. -/
def fillGapsAux (geo : Geometry) (fuel : Nat) :
    List (List ℚ × Point3D) → Nat → Except DecodeError (List (List ℚ))
  | [], _ => pure []
  | (posPat, frameOrigin) :: rest, sliceIndex => do
    let sliceIndex1 := sliceIndex + 1
    let point := indexToWorldZ geo sliceIndex1
    let dSq := distSq frameOrigin point
    let (syn, kEnd, _) ← fillPairLoop geo frameOrigin dSq fuel sliceIndex1 dSq
    let tail ← fillGapsAux geo fuel rest kEnd
    pure (syn ++ posPat :: tail)

/-- The gap-filling stage: the first sorted position followed by, for every
further position, the synthesized intermediate positions and the position
itself. -/
def fillGaps (geo : Geometry) (framePosPats : List (List ℚ))
    (frameOrigins : List Point3D) (fuel : Nat) :
    Except DecodeError (List (List ℚ)) := do
  let pairs := (framePosPats.drop 1).zip (frameOrigins.drop 1)
  let tail ← fillGapsAux geo fuel pairs 0
  pure (framePosPats.take 1 ++ tail)

/-- Typed-array write `buffer[i] = v`: out-of-range or negative indices are
ignored, as on a JS typed array. -/
def listSetI (l : List ℚ) (i : ℤ) (v : ℚ) : List ℚ :=
  if 0 ≤ i ∧ i < (l.length : ℤ) then l.set i.toNat v else l

/-- Typed-array read `buffer[i]` (indices are in range wherever the decoder
reads, by the frame-count check). -/
def listGetI (l : List ℚ) (i : ℤ) : ℚ :=
  if 0 ≤ i ∧ i < (l.length : ℤ) then l.getD i.toNat 0 else 0

/-- One sample of the per-frame merge: a zero mask sample writes nothing; a
non-zero sample writes the frame segment's display value (scalar mode) or its
RGB triple (three consecutive channels); a non-zero sample with an undefined
frame segment dereferences undefined and raises a TypeError. -/
def writeSample (storeAsRGB : Bool) (mul : ℤ) (oseg : Option Segment)
    (pixelBuffer : List ℚ) (frameOffset sliceOffset : ℤ)
    (buffer : List ℚ) (l : Nat) : Except DecodeError (List ℚ) :=
  if listGetI pixelBuffer (frameOffset + l) ≠ 0 then
    match oseg with
    | none => throw (.typeError "frameSegment")
    | some seg =>
      let offset := mul * (sliceOffset + l)
      if storeAsRGB then
        match seg.displayRGBValue with
        | none => throw (.typeError "displayRGBValue")
        | some (r, g, b) =>
          pure (listSetI (listSetI (listSetI buffer offset (parseFloatD r))
            (offset + 1) (parseFloatD g)) (offset + 2) (parseFloatD b))
      else
        pure (listSetI buffer offset
          (match seg.displayValue with
           | some dv => parseFloatD dv
           | none => 0))
  else pure buffer

/-- The fold of `writeSample` over a list of sample offsets. -/
def writeSamples (storeAsRGB : Bool) (mul : ℤ) (oseg : Option Segment)
    (pixelBuffer : List ℚ) (frameOffset sliceOffset : ℤ) :
    List Nat → List ℚ → Except DecodeError (List ℚ)
  | [], buffer => pure buffer
  | l :: rest, buffer => do
    let buffer ←
      writeSample storeAsRGB mul oseg pixelBuffer frameOffset sliceOffset
        buffer l
    writeSamples storeAsRGB mul oseg pixelBuffer frameOffset sliceOffset rest
      buffer

/-- The merge of one frame's 2D mask into the output buffer: the source's
inner loop over every sample offset of the slice. -/
def mergeOneFrame (storeAsRGB : Bool) (mul : ℤ) (oseg : Option Segment)
    (pixelBuffer : List ℚ) (frameOffset sliceOffset : ℤ) (sliceSize : Nat)
    (buffer : List ℚ) : Except DecodeError (List ℚ) :=
  writeSamples storeAsRGB mul oseg pixelBuffer frameOffset sliceOffset
    (List.range sliceSize) buffer

/-- `findIndexPosPat`: JS `Array.findIndex` with the position-equality
predicate, -1 when the position is absent. -/
def findIndexPosPat : List (List ℚ) → List ℚ → ℤ
  | [], _ => -1
  | pp :: rest, pos =>
    if pp = pos then 0
    else
      let r := findIndexPosPat rest pos
      if r = -1 then -1 else r + 1

/-- `segments.find(...)` by strict equality of the segment number with the
frame's referenced segment number. -/
def findSegment : List Segment → DVal → Option Segment
  | [], _ => none
  | seg :: rest, n =>
    if jsStrictEq seg.number n then some seg else findSegment rest n

/-- The merge of all frames: each frame locates its slice by exact position
match in the reconciled list (JS `findIndex`, -1 when absent), resolves its
segment by number, and merges its samples. -/
def mergeFrames (storeAsRGB : Bool) (mul : ℤ) (segments : List Segment)
    (posPats : List (List ℚ)) (sliceSize : Nat) (pixelBuffer : List ℚ) :
    List (Nat × FrameInfo) → List ℚ → Except DecodeError (List ℚ)
  | [], buffer => pure buffer
  | (f, fi) :: rest, buffer => do
    let sliceIndex : ℤ := findIndexPosPat posPats fi.imagePosPat
    let frameOffset : ℤ := (sliceSize : ℤ) * (f : ℤ)
    let sliceOffset : ℤ := (sliceSize : ℤ) * sliceIndex
    let frameSegment := findSegment segments fi.refSegmentNumber
    let buffer ← mergeOneFrame storeAsRGB mul frameSegment pixelBuffer
      frameOffset sliceOffset sliceSize buffer
    mergeFrames storeAsRGB mul segments posPats sliceSize pixelBuffer rest buffer

/-- The metadata record assembled at the end of a decode. -/
structure Meta where
  base : List (String × DVal)
  studyDate : Option DVal
  studyTime : Option DVal
  studyInstanceUID : Option DVal
  studyID : Option DVal
  seriesInstanceUID : Option DVal
  seriesNumber : Option DVal
  referringPhysicianName : Option DVal
  patientName : Option DVal
  patientID : Option DVal
  patientBirthDate : Option DVal
  patientSex : Option DVal
  manufacturer : Option DVal
  manufacturerModelName : Option DVal
  deviceSerialNumber : Option DVal
  softwareVersions : Option DVal
  dimension : DimOrganization
  segments : List Segment
  frameInfos : List FrameInfo
  sopInstanceUID : DVal
  numberOfFiles : Nat
  frameOfReferenceUID : Option DVal
  lossyImageCompression : Option DVal

/-- The decoded volume: geometry, sample buffer, slice uids, photometric
interpretation override and metadata. -/
structure Image where
  geometry : Geometry
  buffer : List ℚ
  uids : List String
  photometricInterpretation : Option String
  meta : Meta

/-- The tag-check loop at the head of `create`: `checkTag` over every entry
of the required-tag table. -/
def checkTags (dataElements : DataElements) :
    List TagDefinition → Except DecodeError Unit
  | [] => pure ()
  | t :: rest => do
    checkTag dataElements t
    checkTags dataElements rest

/-- The shared functional groups read: the shared plane orientation and the
shared pixel-measures spacing, when present and non-empty. -/
def sharedOrientAndSpacing (dataElements : DataElements) :
    Except DecodeError (Option (List DVal) × Option (List ℚ)) :=
  match lookupEl dataElements "52009229" with
  | none => pure (none, none)
  | some sharedSeq =>
    let funcGroup0 := elVal0 sharedSeq
    do
      let orient ←
        match optField funcGroup0 "00209116" with
        | none => pure none
        | some planeOrientationSeq =>
          if (elValues planeOrientationSeq).length ≠ 0 then do
            pure (some (elValues
              (← reqField (elVal0 planeOrientationSeq) "00200037")))
          else pure none
      let spc :=
        match optField funcGroup0 "00289110" with
        | none => none
        | some pixelMeasuresSeq =>
          if (elValues pixelMeasuresSeq).length ≠ 0 then
            getSpacingFromMeasure (elVal0 pixelMeasuresSeq)
          else none
      pure (orient, spc)

/-- `safeGet(key)`: first value of an element when present. -/
def safeGet (dataElements : DataElements) (key : String) : Option DVal :=
  (lookupEl dataElements key).map elVal0

/-- The validation-and-parse phase of `MaskFactory.create` (tag checks,
image size, frame count versus buffer length, dimension organization, the
segment sequence and the RGB mode flag, the shared functional groups, and
the per-frame infos), collected into one record. -/
structure SegHeader where
  size : List Nat
  sliceSize : Nat
  frames : ℚ
  dimension : DimOrganization
  segments : List Segment
  storeAsRGB : Bool
  sharedOrient : Option (List DVal)
  sharedSpacing : Option (List ℚ)
  frameInfos : List FrameInfo

/-- The head of `MaskFactory.create`: required-tag checks, 2D size, frame
count against the pixel-buffer length, dimension organization, segments (and
whether any has an RGB display value), shared groups and per-frame infos. -/
def parseSegHeader (dataElements : DataElements) (pixelBufferLength : Nat) :
    Except DecodeError SegHeader := do
  checkTags dataElements RequiredDicomSegTags
  let size2D ← getImage2DSize dataElements
  let sliceSize := size2D.1 * size2D.2 * 1
  let frames : ℚ :=
    match lookupEl dataElements "00280008" with
    | some framesElem => parseIntD (elVal0 framesElem)
    | none => 1
  if frames ≠ (pixelBufferLength : ℚ) / (sliceSize : ℚ) then
    throw .bufferFramesMismatch
  else do
    let dimension ← getDimensionOrganization dataElements
    let segSequence ←
      match lookupEl dataElements "00620002" with
      | none => throw DecodeError.missingSegmentSequence
      | some el => pure el
    let segments ← getSegments (elValues segSequence)
    let storeAsRGB := segments.any (fun s => s.displayRGBValue.isSome)
    let (sharedOrient, sharedSpacing) ← sharedOrientAndSpacing dataElements
    let perFrameSeq ←
      match lookupEl dataElements "52009230" with
      | none => throw DecodeError.missingPerFrameSequence
      | some el => pure el
    if frames ≠ ((elValues perFrameSeq).length : ℚ) then
      throw .perFrameCountMismatch
    else do
      let frameInfos ← getFrameInfos (elValues perFrameSeq)
      pure ⟨[size2D.1, size2D.2, 1], sliceSize, frames, dimension, segments,
        storeAsRGB, sharedOrient, sharedSpacing, frameInfos⟩

/-- The reconciled geometry of a decode: sorted unique positions, their
origins, the orientation matrix, and the spacing after the slice-spacing
override. -/
structure SegGeometryInfo where
  sortedPosPats : List (List ℚ)
  frameOrigins : List Point3D
  orientationMatrix : Matrix33
  newSpacing : List ℚ

/-- The frame-reconciliation phase of `MaskFactory.create`: scan the frame
infos (position de-duplication, multi-orientation and multi-spacing
rejection), require a spacing and an orientation, build the orientation
matrix from the cosines and their cross product, sort the positions along
the normal (a degenerate orientation makes the sort comparator dereference
an undefined inverse when there are at least two positions), and override
the declared slice spacing with the geometric one when they differ. -/
def reconcileGeometry (h : SegHeader) : Except DecodeError SegGeometryInfo := do
  let (framePosPats, orientOpt, spacingOpt) ←
    scanFrameInfos h.frameInfos [] h.sharedOrient h.sharedSpacing
  let spacingVals ←
    match spacingOpt with
    | none => throw DecodeError.missingSpacingForSeg
    | some sp => pure sp
  let iop ←
    match orientOpt with
    | none => throw DecodeError.missingOrientationForSeg
    | some o => pure o
  let rowCosines : Vector3D :=
    ⟨parseFloatD (iop.getD 0 .undef), parseFloatD (iop.getD 1 .undef),
     parseFloatD (iop.getD 2 .undef)⟩
  let colCosines : Vector3D :=
    ⟨parseFloatD (iop.getD 3 .undef), parseFloatD (iop.getD 4 .undef),
     parseFloatD (iop.getD 5 .undef)⟩
  let normal := rowCosines.crossProduct colCosines
  let orientationMatrix : Matrix33 :=
    ⟨rowCosines.x, colCosines.x, normal.x,
     rowCosines.y, colCosines.y, normal.y,
     rowCosines.z, colCosines.z, normal.z⟩
  let sortedPosPats ←
    match orientationMatrix.getInverse with
    | none =>
      if framePosPats.length ≥ 2 then
        throw (DecodeError.typeError "invOrientation")
      else pure framePosPats
    | some inv =>
      pure (sortByKey (fun pos => (inv.multiplyArray3D pos).getD 2 0)
        framePosPats)
  let frameOrigins := sortedPosPats.map point3DFromArray
  let geoSliceSpacing := getSliceGeometrySpacing frameOrigins orientationMatrix
  let newSpacing :=
    match geoSliceSpacing with
    | some g =>
      if g ≠ spacingVals.getD 2 0 then
        spacingVals.take 2 ++ [g] ++ spacingVals.drop 3
      else spacingVals
    | none => spacingVals
  pure ⟨sortedPosPats, frameOrigins, orientationMatrix, newSpacing⟩

/-- The assembly phase of `MaskFactory.create`: gap filling over the sorted
positions, final geometry and uids, zero-filled output buffer, per-frame
merge, and the metadata record (which requires the SOP instance UID
element). -/
def assembleVolume (dataElements : DataElements) (pixelBuffer : List ℚ)
    (fuel : Nat) (h : SegHeader) (g : SegGeometryInfo) :
    Except DecodeError Image := do
  let origin0 := g.frameOrigins.getD 0 ⟨0, 0, 0⟩
  let tmpGeometry : Geometry :=
    ⟨origin0, h.size, g.newSpacing, g.orientationMatrix, [origin0]⟩
  let posPats ← fillGaps tmpGeometry g.sortedPosPats g.frameOrigins fuel
  let numberOfSlices := posPats.length
  let geometry : Geometry :=
    ⟨origin0, h.size, g.newSpacing, g.orientationMatrix,
      posPats.map point3DFromArray⟩
  let uids := (List.range numberOfSlices).map (fun m => toString m)
  let mul : ℤ := if h.storeAsRGB then 3 else 1
  let buffer : List ℚ :=
    List.replicate (mul.toNat * h.sliceSize * numberOfSlices) 0
  let buffer ← mergeFrames h.storeAsRGB mul h.segments posPats h.sliceSize
    pixelBuffer (List.range h.frameInfos.length |>.zip h.frameInfos) buffer
  let sopEl ←
    match lookupEl dataElements "00080018" with
    | none => throw (DecodeError.typeError "SOPInstanceUID")
    | some el => pure el
  let meta : Meta :=
    { base := getDefaultDicomSegJson
      studyDate := safeGet dataElements "00080020"
      studyTime := safeGet dataElements "00080030"
      studyInstanceUID := safeGet dataElements "0020000D"
      studyID := safeGet dataElements "00200010"
      seriesInstanceUID := safeGet dataElements "0020000E"
      seriesNumber := safeGet dataElements "00200011"
      referringPhysicianName := safeGet dataElements "00080090"
      patientName := safeGet dataElements "00100010"
      patientID := safeGet dataElements "00100020"
      patientBirthDate := safeGet dataElements "00100030"
      patientSex := safeGet dataElements "00100040"
      manufacturer := safeGet dataElements "00080070"
      manufacturerModelName := safeGet dataElements "00081090"
      deviceSerialNumber := safeGet dataElements "00181000"
      softwareVersions := safeGet dataElements "00181020"
      dimension := h.dimension
      segments := h.segments
      frameInfos := h.frameInfos
      sopInstanceUID := elVal0 sopEl
      numberOfFiles := numberOfSlices
      frameOfReferenceUID := safeGet dataElements "00200052"
      lossyImageCompression := safeGet dataElements "00282110" }
  pure
    { geometry := geometry
      buffer := buffer
      uids := uids
      photometricInterpretation := if h.storeAsRGB then some "RGB" else none
      meta := meta }

/-- `MaskFactory.create(dataElements, pixelBuffer)`: the whole decode, as
the composition of the parse, reconcile and assemble phases.  `fuel` bounds
the gap-filling loops of the source (an embedding artifact; the source loop
is unbounded). -/
def create (dataElements : DataElements) (pixelBuffer : List ℚ) (fuel : Nat) :
    Except DecodeError Image := do
  let h ← parseSegHeader dataElements pixelBuffer.length
  let g ← reconcileGeometry h
  assembleVolume dataElements pixelBuffer fuel h g

/-- The slice count of a successful decode (`meta.numberOfFiles`, equal to
the reconciled position count). -/
def resultSlices (r : Except DecodeError Image) : Option Nat :=
  r.toOption.map (fun i => i.meta.numberOfFiles)

/-- The sample buffer of a successful decode. -/
def resultBuffer (r : Except DecodeError Image) : Option (List ℚ) :=
  r.toOption.map (fun i => i.buffer)

/-- The final spacing of a successful decode. -/
def resultSpacing (r : Except DecodeError Image) : Option (List ℚ) :=
  r.toOption.map (fun i => i.geometry.spacing)

/-- The error of a failed decode. -/
def resultErr (r : Except DecodeError Image) : Option DecodeError :=
  match r with
  | .error e => some e
  | .ok _ => none

/-- The elements for the thirteen entries of the required-tag table, each
holding an accepted value. -/
def requiredTagEls : DataElements :=
  [("00020010", .arr [.str "1.2.840.10008.1.2.1"]),
   ("00020002", .arr [.str "1.2.840.10008.5.1.4.1.1.66.4"]),
   ("00080060", .arr [.str "SEG"]),
   ("00620001", .arr [.str "BINARY"]),
   ("00209311", .arr [.str "3D"]),
   ("00080008", .arr [.str "DERIVED", .str "PRIMARY"]),
   ("00280002", .arr [.num 1]),
   ("00280004", .arr [.str "MONOCHROME2"]),
   ("00280103", .arr [.num 0]),
   ("00280100", .arr [.num 1]),
   ("00280101", .arr [.num 1]),
   ("00280102", .arr [.num 0])]

/-- A per-frame functional group item: plane position at (0, 0, z), the
referenced segment number, and an optional plane orientation. -/
def frameGroupItem (z segNum : ℚ) (orient : Option (List DVal)) : DVal :=
  .item
    ([("00209113", .arr [.item [("00200032", .arr [.num 0, .num 0, .num z])]]),
      ("0062000A", .arr [.item [("0062000B", .arr [.num segNum])]])] ++
     (match orient with
      | some o => [("00209116", .arr [.item [("00200037", .arr o)]])]
      | none => []))

/-- A shared functional group item carrying a pixel-measures entry with pixel
spacing (c, r) and spacing-between-slices s, and optionally a plane
orientation. -/
def sharedGroupItem (c r s : ℚ) (orient : Option (List DVal)) : DVal :=
  .item
    ((match orient with
      | some o => [("00209116", .arr [.item [("00200037", .arr o)]])]
      | none => []) ++
     [("00289110", .arr [.item
        [("00280030", .arr [.num c, .num r]),
         ("00180088", .arr [.num s])]])])

/-- A segment-sequence item with a scalar display value. -/
def segItemScalar (n v : ℚ) : DVal :=
  .item [("00620004", .arr [.num n]), ("0062000C", .arr [.num v])]

/-- A complete 1x1-pixel SEG tag store: required tags, rows/columns 1, the
given frame count, one dimension organization, the given segment sequence,
shared group, and per-frame items. -/
def segStore (frames : ℚ) (segItems : List DVal) (shared : List DVal)
    (frameItems : List DVal) : DataElements :=
  requiredTagEls ++
  [("00280010", .arr [.num 1]),
   ("00280011", .arr [.num 1]),
   ("00280008", .arr [.num frames]),
   ("00209221", .arr [.item [("00209164", .arr [.str "org"])]]),
   ("00620002", .arr segItems),
   ("52009229", .arr shared),
   ("52009230", .arr frameItems),
   ("00080018", .arr [.str "sop"])]

/-- The C2 scenario input: two frames at (0,0,0) and (0,0,4), declared
spacing (1,1,2), one segment with scalar display value 5, all mask samples
non-zero. -/
def c2store : DataElements :=
  segStore 2 [segItemScalar 1 5]
    [sharedGroupItem 1 1 2
      (some [.num 1, .num 0, .num 0, .num 0, .num 1, .num 0])]
    [frameGroupItem 0 1 none, frameGroupItem 4 1 none]

/-- The C2 scenario pixel buffer: two 1x1 frames, every sample non-zero. -/
def c2pixels : List ℚ := [1, 1]

/-- The reference orientation used in the C4 inputs. -/
def c4orientA : List DVal := [.num 1, .num 0, .num 0, .num 0, .num 1, .num 0]

/-- A permutation of [[c4orientA]]: a different 6-tuple with the same values
as a multiset. -/
def c4orientB : List DVal := [.num 0, .num 1, .num 0, .num 1, .num 0, .num 0]

/-- A 6-tuple differing from [[c4orientA]] also as a multiset. -/
def c4orientC : List DVal := [.num 1, .num 0, .num 0, .num 0, .num 1, .num 1]

/-- The C4 input: two frames at the same position, with per-frame
orientations that are distinct 6-tuples but permutations of each other;
spacing comes from the shared group. -/
def c4store : DataElements :=
  segStore 2 [segItemScalar 1 5]
    [sharedGroupItem 1 1 1 none]
    [frameGroupItem 0 1 (some c4orientA), frameGroupItem 0 1 (some c4orientB)]

/-- The C4 input variant whose second orientation differs from the reference
even as a multiset. -/
def c4storeMulti : DataElements :=
  segStore 2 [segItemScalar 1 5]
    [sharedGroupItem 1 1 1 none]
    [frameGroupItem 0 1 (some c4orientA), frameGroupItem 0 1 (some c4orientC)]

/-- Pixel buffer for the C4 inputs: two 1x1 frames. -/
def c4pixels : List ℚ := [1, 1]

/-- The C5 input: one frame referencing segment number 2 while the segment
sequence only defines segment 1. -/
def c5store : DataElements :=
  segStore 1 [segItemScalar 1 5]
    [sharedGroupItem 1 1 1 (some c4orientA)]
    [frameGroupItem 0 2 none]

/-- C5 pixel buffer with the single mask sample zero. -/
def c5pixelsZero : List ℚ := [0]

/-- C5 pixel buffer with the single mask sample non-zero. -/
def c5pixelsOne : List ℚ := [1]

/-- The squared distance from the next real origin `F` to the grid point at
slice index `k`, the quantity the gap-filling loop tests. -/
def gapDistSq (geo : Geometry) (F : Point3D) (k : Nat) : ℚ :=
  distSq F (indexToWorldZ geo k)

/-- The squared length of one grid step of the gap-filling walk (slice
spacing times the orientation's third column). -/
def gapStepSq (geo : Geometry) : ℚ :=
  distSq (indexToWorldZ geo 1) (indexToWorldZ geo 0)

/-- A concrete axial geometry used as a witness input: unit spacing, identity
orientation, origin at zero. -/
def gapGeo : Geometry :=
  ⟨⟨0, 0, 0⟩, [1, 1, 1], [1, 1, 1], ⟨1, 0, 0, 0, 1, 0, 0, 0, 1⟩, [⟨0, 0, 0⟩]⟩

/-- A degenerate geometry with a zero grid step, as the decoder builds when
two distinct frame positions share their normal projection: the inferred
slice spacing is the smallest absolute projection difference, 0, and it
overrides the declared spacing. -/
def zeroStepGeo : Geometry :=
  ⟨⟨0, 0, 0⟩, [1, 1, 1], [1, 1, 0], ⟨1, 0, 0, 0, 1, 0, 0, 0, 1⟩, [⟨0, 0, 0⟩]⟩

/-- Reduction of a successful bind in the `Except` monad. -/
@[simp] theorem exceptOkBind {ε α β : Type} (a : α) (f : α → Except ε β) :
    (Except.ok a : Except ε α) >>= f = f a := rfl

/-- Reduction of a failed bind in the `Except` monad. -/
@[simp] theorem exceptErrorBind {ε α β : Type} (e : ε) (f : α → Except ε β) :
    (Except.error e : Except ε α) >>= f = Except.error e := rfl

/-- `pure` in the `Except` monad is `Except.ok`. -/
@[simp] theorem exceptPureEqOk {ε α : Type} (a : α) :
    (pure a : Except ε α) = Except.ok a := rfl

/-- `throw` in the `Except` monad is `Except.error`. -/
@[simp] theorem exceptThrowEqError {ε α : Type} (e : ε) :
    (throw e : Except ε α) = Except.error e := rfl

/-- `Functor.map` over a successful `Except` value. -/
@[simp] theorem exceptMapOk {ε α β : Type} (f : α → β) (a : α) :
    (f <$> (Except.ok a : Except ε α)) = Except.ok (f a) := rfl

/-- `Functor.map` over a failed `Except` value. -/
@[simp] theorem exceptMapError {ε α β : Type} (f : α → β) (e : ε) :
    (f <$> (Except.error e : Except ε α)) = Except.error e := rfl

/-- All required-tag checks pass on any store built by `segStore`,
independently of its varying parts. -/
theorem checkTags_segStore (f : ℚ) (si sh fi : List DVal) :
    checkTags (segStore f si sh fi) RequiredDicomSegTags = .ok () := by
  simp (disch := norm_num) [checkTags, checkTag, checkTagValue,
    includesArr, arraySortEquals, jsStrictEq, lookupEl, elValues, elVal0,
    RequiredDicomSegTags, segStore, requiredTagEls, List.countP_cons,
    exceptOkBind, exceptErrorBind, exceptPureEqOk, exceptThrowEqError]

/-- The 2D size of any `segStore` store is 1 by 1. -/
theorem image2DSize_segStore (f : ℚ) (si sh fi : List DVal) :
    getImage2DSize (segStore f si sh fi) = .ok (1, 1) := by
  simp [getImage2DSize, lookupEl, elValues, elVal0, parseFloatD, segStore,
    requiredTagEls]

/-- The dimension organization of any `segStore` store. -/
theorem dimOrg_segStore (f : ℚ) (si sh fi : List DVal) :
    getDimensionOrganization (segStore f si sh fi) = .ok ⟨.str "org", []⟩ := by
  simp [getDimensionOrganization, readDimIndices, lookupEl, elValues, elVal0,
    reqField, optField, jsStrictEq, segStore, requiredTagEls,
    exceptOkBind, exceptPureEqOk]

/-- The number-of-frames element of a `segStore` store. -/
theorem lookup_frames_segStore (f : ℚ) (si sh fi : List DVal) :
    lookupEl (segStore f si sh fi) "00280008" = some (.arr [.num f]) := by
  simp [lookupEl, segStore, requiredTagEls]

/-- The segment-sequence element of a `segStore` store. -/
theorem lookup_segSeq_segStore (f : ℚ) (si sh fi : List DVal) :
    lookupEl (segStore f si sh fi) "00620002" = some (.arr si) := by
  simp [lookupEl, segStore, requiredTagEls]

/-- The per-frame-sequence element of a `segStore` store. -/
theorem lookup_perFrame_segStore (f : ℚ) (si sh fi : List DVal) :
    lookupEl (segStore f si sh fi) "52009230" = some (.arr fi) := by
  simp [lookupEl, segStore, requiredTagEls]

/-- The SOP-instance-UID element of a `segStore` store. -/
theorem lookup_sop_segStore (f : ℚ) (si sh fi : List DVal) :
    lookupEl (segStore f si sh fi) "00080018" = some (.arr [.str "sop"]) := by
  simp [lookupEl, segStore, requiredTagEls]

/-- The shared groups of a `segStore` store whose shared item carries an
orientation. -/
theorem sharedOAS_segStore (f : ℚ) (si fi : List DVal) (c r s : ℚ)
    (orient : List DVal) :
    sharedOrientAndSpacing
        (segStore f si [sharedGroupItem c r s (some orient)] fi) =
      .ok (some orient, some [c, r, s]) := by
  simp [sharedOrientAndSpacing, lookupEl, segStore, requiredTagEls,
    sharedGroupItem, optField, reqField, elValues, elVal0,
    getSpacingFromMeasure, parseFloatD, exceptOkBind, exceptPureEqOk]

/-- The shared groups of a `segStore` store whose shared item carries no
orientation. -/
theorem sharedOAS_segStore_noOrient (f : ℚ) (si fi : List DVal) (c r s : ℚ) :
    sharedOrientAndSpacing (segStore f si [sharedGroupItem c r s none] fi) =
      .ok (none, some [c, r, s]) := by
  simp [sharedOrientAndSpacing, lookupEl, segStore, requiredTagEls,
    sharedGroupItem, optField, reqField, elValues, elVal0,
    getSpacingFromMeasure, parseFloatD, exceptOkBind, exceptPureEqOk]

/-- Parsing a scalar segment item. -/
theorem getSegment_scalar (n v : ℚ) :
    getSegment (segItemScalar n v) = .ok ⟨.num n, some (.num v), none⟩ := by
  simp [getSegment, segItemScalar, reqField, optField, lookupEl, elValues,
    elVal0, exceptOkBind, exceptPureEqOk]

/-- Parsing a per-frame item without an orientation. -/
theorem frameInfo_none (z n : ℚ) :
    getSegmentFrameInfo (frameGroupItem z n none) =
      .ok ⟨.num n, [0, 0, z], none, none⟩ := by
  simp [getSegmentFrameInfo, frameGroupItem, reqField, optField, lookupEl,
    elValues, elVal0, parseFloatD, exceptOkBind, exceptPureEqOk]

/-- Parsing a per-frame item with an orientation. -/
theorem frameInfo_orient (z n : ℚ) (o : List DVal) :
    getSegmentFrameInfo (frameGroupItem z n (some o)) =
      .ok ⟨.num n, [0, 0, z], some o, none⟩ := by
  simp [getSegmentFrameInfo, frameGroupItem, reqField, optField, lookupEl,
    elValues, elVal0, parseFloatD, exceptOkBind, exceptPureEqOk]

/-- The parse phase on the C2 input. -/
theorem c2parse : parseSegHeader c2store 2 = .ok
    ⟨[1, 1, 1], 1, 2, ⟨.str "org", []⟩, [⟨.num 1, some (.num 5), none⟩], false,
     some [.num 1, .num 0, .num 0, .num 0, .num 1, .num 0], some [1, 1, 2],
     [⟨.num 1, [0, 0, 0], none, none⟩, ⟨.num 1, [0, 0, 4], none, none⟩]⟩ := by
  simp (disch := norm_num) [parseSegHeader, c2store, checkTags_segStore,
    image2DSize_segStore, dimOrg_segStore, lookup_frames_segStore,
    lookup_segSeq_segStore, lookup_perFrame_segStore, sharedOAS_segStore,
    getSegments, getSegment_scalar, getFrameInfos, frameInfo_none,
    elValues, elVal0, parseIntD, exceptOkBind, exceptErrorBind,
    exceptPureEqOk, exceptThrowEqError, if_pos, if_neg]

set_option maxHeartbeats 1000000 in
/-- The reconcile phase on the C2 header: the slice spacing is overridden by
the observed inter-position projection 4. -/
theorem c2geom : reconcileGeometry
    ⟨[1, 1, 1], 1, 2, ⟨.str "org", []⟩, [⟨.num 1, some (.num 5), none⟩], false,
     some [.num 1, .num 0, .num 0, .num 0, .num 1, .num 0], some [1, 1, 2],
     [⟨.num 1, [0, 0, 0], none, none⟩, ⟨.num 1, [0, 0, 4], none, none⟩]⟩ = .ok
    ⟨[[0, 0, 0], [0, 0, 4]], [⟨0, 0, 0⟩, ⟨0, 0, 4⟩],
     ⟨1, 0, 0, 0, 1, 0, 0, 0, 1⟩, [1, 1, 4]⟩ := by
  norm_num [reconcileGeometry, scanFrameInfos, parseFloatD,
    Vector3D.crossProduct, Matrix33.getInverse, getMatrixInverse,
    Matrix33.multiplyArray3D, sortByKey, insertByKey, point3DFromArray,
    getSliceGeometrySpacing, arraySortEquals, jsStrictEq,
    exceptOkBind, exceptErrorBind, exceptPureEqOk, exceptThrowEqError]

/-- The SOP element of the C2 input. -/
theorem c2sop : lookupEl c2store "00080018" = some (.arr [.str "sop"]) := by
  simp [c2store, lookup_sop_segStore]

set_option maxHeartbeats 1000000 in
/-- The full decode of the C2 input: 2 slices, both filled with the display
value 5, final spacing (1, 1, 4). -/
theorem c2eval :
    (resultSlices (create c2store c2pixels 10),
     resultBuffer (create c2store c2pixels 10),
     resultSpacing (create c2store c2pixels 10)) =
      (some 2, some [5, 5], some [1, 1, 4]) := by
  norm_num [resultSlices, resultBuffer, resultSpacing, create, c2parse, c2geom,
    c2pixels, c2sop, assembleVolume, fillGaps, fillGapsAux,
    fillPairLoop, indexToWorldZ, distSq, isNotSmallSq, realWorldEpsilon,
    point3DFromArray, mergeFrames, mergeOneFrame, writeSamples, writeSample,
    findIndexPosPat, findSegment, jsStrictEq, listGetI, listSetI, parseFloatD,
    elVal0, elValues, List.range_succ, List.zip_cons_cons, List.replicate,
    Int.toNat_one, Except.toOption, Option.map_some,
    exceptOkBind, exceptErrorBind, exceptPureEqOk, exceptThrowEqError]

/-- The parse phase on the C4 input. -/
theorem c4parse : parseSegHeader c4store 2 = .ok
    ⟨[1, 1, 1], 1, 2, ⟨.str "org", []⟩, [⟨.num 1, some (.num 5), none⟩], false,
     none, some [1, 1, 1],
     [⟨.num 1, [0, 0, 0], some [.num 1, .num 0, .num 0, .num 0, .num 1, .num 0], none⟩,
      ⟨.num 1, [0, 0, 0], some [.num 0, .num 1, .num 0, .num 1, .num 0, .num 0], none⟩]⟩ := by
  simp (disch := norm_num) [parseSegHeader, c4store, c4orientA, c4orientB,
    checkTags_segStore, image2DSize_segStore, dimOrg_segStore,
    lookup_frames_segStore, lookup_segSeq_segStore, lookup_perFrame_segStore,
    sharedOAS_segStore_noOrient, getSegments, getSegment_scalar, getFrameInfos,
    frameInfo_orient, elValues, elVal0, parseIntD, exceptOkBind,
    exceptErrorBind, exceptPureEqOk, exceptThrowEqError, if_pos, if_neg]

set_option maxHeartbeats 1000000 in
/-- The reconcile phase on the C4 header: the permuted orientation passes the
order-insensitive comparison and the reference orientation is kept. -/
theorem c4geom : reconcileGeometry
    ⟨[1, 1, 1], 1, 2, ⟨.str "org", []⟩, [⟨.num 1, some (.num 5), none⟩], false,
     none, some [1, 1, 1],
     [⟨.num 1, [0, 0, 0], some [.num 1, .num 0, .num 0, .num 0, .num 1, .num 0], none⟩,
      ⟨.num 1, [0, 0, 0], some [.num 0, .num 1, .num 0, .num 1, .num 0, .num 0], none⟩]⟩ = .ok
    ⟨[[0, 0, 0]], [⟨0, 0, 0⟩], ⟨1, 0, 0, 0, 1, 0, 0, 0, 1⟩, [1, 1, 1]⟩ := by
  norm_num [reconcileGeometry, scanFrameInfos, parseFloatD,
    Vector3D.crossProduct, Matrix33.getInverse, getMatrixInverse,
    Matrix33.multiplyArray3D, sortByKey, insertByKey, point3DFromArray,
    getSliceGeometrySpacing, arraySortEquals, jsStrictEq, List.countP_cons,
    exceptOkBind, exceptErrorBind, exceptPureEqOk, exceptThrowEqError]

/-- The SOP element of the C4 input. -/
theorem c4sop : lookupEl c4store "00080018" = some (.arr [.str "sop"]) := by
  simp [c4store, lookup_sop_segStore]

set_option maxHeartbeats 1000000 in
/-- The full decode of the C4 input: no error, a 1-slice volume. -/
theorem c4eval :
    (resultErr (create c4store c4pixels 10),
     resultSlices (create c4store c4pixels 10)) = (none, some 1) := by
  norm_num [resultErr, resultSlices, create, c4parse, c4geom, c4pixels, c4sop,
    assembleVolume, fillGaps, fillGapsAux, fillPairLoop, indexToWorldZ, distSq,
    isNotSmallSq, realWorldEpsilon, point3DFromArray, mergeFrames,
    mergeOneFrame, writeSamples, writeSample, findIndexPosPat, findSegment,
    jsStrictEq, listGetI, listSetI, parseFloatD, elVal0, elValues,
    List.range_succ, List.zip_cons_cons, List.replicate, Int.toNat_one,
    Except.toOption, Option.map_some, exceptOkBind, exceptErrorBind,
    exceptPureEqOk, exceptThrowEqError]

/-- The parse phase on the C4 multiset-differing variant. -/
theorem c4parseMulti : parseSegHeader c4storeMulti 2 = .ok
    ⟨[1, 1, 1], 1, 2, ⟨.str "org", []⟩, [⟨.num 1, some (.num 5), none⟩], false,
     none, some [1, 1, 1],
     [⟨.num 1, [0, 0, 0], some [.num 1, .num 0, .num 0, .num 0, .num 1, .num 0], none⟩,
      ⟨.num 1, [0, 0, 0], some [.num 1, .num 0, .num 0, .num 0, .num 1, .num 1], none⟩]⟩ := by
  simp (disch := norm_num) [parseSegHeader, c4storeMulti, c4orientA, c4orientC,
    checkTags_segStore, image2DSize_segStore, dimOrg_segStore,
    lookup_frames_segStore, lookup_segSeq_segStore, lookup_perFrame_segStore,
    sharedOAS_segStore_noOrient, getSegments, getSegment_scalar, getFrameInfos,
    frameInfo_orient, elValues, elVal0, parseIntD, exceptOkBind,
    exceptErrorBind, exceptPureEqOk, exceptThrowEqError, if_pos, if_neg]

set_option maxHeartbeats 1000000 in
/-- The reconcile phase rejects the multiset-differing orientation pair. -/
theorem c4geomMulti : reconcileGeometry
    ⟨[1, 1, 1], 1, 2, ⟨.str "org", []⟩, [⟨.num 1, some (.num 5), none⟩], false,
     none, some [1, 1, 1],
     [⟨.num 1, [0, 0, 0], some [.num 1, .num 0, .num 0, .num 0, .num 1, .num 0], none⟩,
      ⟨.num 1, [0, 0, 0], some [.num 1, .num 0, .num 0, .num 0, .num 1, .num 1], none⟩]⟩ =
    .error .multiOrientation := by
  norm_num [reconcileGeometry, scanFrameInfos, arraySortEquals, jsStrictEq,
    List.countP_cons, exceptOkBind, exceptErrorBind, exceptPureEqOk,
    exceptThrowEqError]

/-- The full decode of the C4 multiset-differing variant fails with the
multi-orientation error. -/
theorem c4evalMulti :
    resultErr (create c4storeMulti c4pixels 10) = some .multiOrientation := by
  norm_num [resultErr, create, c4parseMulti, c4geomMulti, c4pixels,
    exceptOkBind, exceptErrorBind, exceptPureEqOk, exceptThrowEqError]

/-- The parse phase on the C5 input. -/
theorem c5parse : parseSegHeader c5store 1 = .ok
    ⟨[1, 1, 1], 1, 1, ⟨.str "org", []⟩, [⟨.num 1, some (.num 5), none⟩], false,
     some [.num 1, .num 0, .num 0, .num 0, .num 1, .num 0], some [1, 1, 1],
     [⟨.num 2, [0, 0, 0], none, none⟩]⟩ := by
  simp (disch := norm_num) [parseSegHeader, c5store, c4orientA,
    checkTags_segStore, image2DSize_segStore, dimOrg_segStore,
    lookup_frames_segStore, lookup_segSeq_segStore, lookup_perFrame_segStore,
    sharedOAS_segStore, getSegments, getSegment_scalar, getFrameInfos,
    frameInfo_none, elValues, elVal0, parseIntD, exceptOkBind,
    exceptErrorBind, exceptPureEqOk, exceptThrowEqError, if_pos, if_neg]

set_option maxHeartbeats 1000000 in
/-- The reconcile phase on the C5 header. -/
theorem c5geom : reconcileGeometry
    ⟨[1, 1, 1], 1, 1, ⟨.str "org", []⟩, [⟨.num 1, some (.num 5), none⟩], false,
     some [.num 1, .num 0, .num 0, .num 0, .num 1, .num 0], some [1, 1, 1],
     [⟨.num 2, [0, 0, 0], none, none⟩]⟩ = .ok
    ⟨[[0, 0, 0]], [⟨0, 0, 0⟩], ⟨1, 0, 0, 0, 1, 0, 0, 0, 1⟩, [1, 1, 1]⟩ := by
  norm_num [reconcileGeometry, scanFrameInfos, parseFloatD,
    Vector3D.crossProduct, Matrix33.getInverse, getMatrixInverse,
    Matrix33.multiplyArray3D, sortByKey, insertByKey, point3DFromArray,
    getSliceGeometrySpacing, arraySortEquals, jsStrictEq,
    exceptOkBind, exceptErrorBind, exceptPureEqOk, exceptThrowEqError]

/-- The SOP element of the C5 input. -/
theorem c5sop : lookupEl c5store "00080018" = some (.arr [.str "sop"]) := by
  simp [c5store, lookup_sop_segStore]

set_option maxHeartbeats 1000000 in
/-- The full decode of the C5 input with an all-zero mask: no error, a
1-slice volume with an all-zero buffer. -/
theorem c5evalZero :
    (resultErr (create c5store c5pixelsZero 10),
     resultSlices (create c5store c5pixelsZero 10),
     resultBuffer (create c5store c5pixelsZero 10)) =
      (none, some 1, some [0]) := by
  norm_num [resultErr, resultSlices, resultBuffer, create, c5parse, c5geom,
    c5pixelsZero, c5sop, assembleVolume, fillGaps, fillGapsAux, fillPairLoop,
    indexToWorldZ, distSq, isNotSmallSq, realWorldEpsilon, point3DFromArray,
    mergeFrames, mergeOneFrame, writeSamples, writeSample, findIndexPosPat,
    findSegment, jsStrictEq, listGetI, listSetI, parseFloatD, elVal0, elValues,
    List.range_succ, List.zip_cons_cons, List.replicate, Int.toNat_one,
    Except.toOption, Option.map_some, exceptOkBind, exceptErrorBind,
    exceptPureEqOk, exceptThrowEqError]

set_option maxHeartbeats 1000000 in
/-- The full decode of the C5 input with a non-zero mask sample fails with
the TypeError raised by dereferencing the undefined frame segment. -/
theorem c5evalOne :
    resultErr (create c5store c5pixelsOne 10) =
      some (.typeError "frameSegment") := by
  norm_num [resultErr, create, c5parse, c5geom, c5pixelsOne, c5sop,
    assembleVolume, fillGaps, fillGapsAux, fillPairLoop, indexToWorldZ, distSq,
    isNotSmallSq, realWorldEpsilon, point3DFromArray, mergeFrames,
    mergeOneFrame, writeSamples, writeSample, findIndexPosPat, findSegment,
    jsStrictEq, listGetI, listSetI, parseFloatD, elVal0, elValues,
    List.range_succ, List.zip_cons_cons, List.replicate, Int.toNat_one,
    Except.toOption, Option.map_some, exceptOkBind, exceptErrorBind,
    exceptPureEqOk, exceptThrowEqError]

/-- C1: the tag-check loop never raises a missing-tag error because
`checkTag` compares the table's requirement levels — the strings "1" and
"3" — against the numbers 1 and 2 under strict equality, which is always
false; on a store containing no elements at all, so that every required tag
(TransferSyntaxUID at key 00020010 included) is absent, every `checkTag`
call over the required-tag table succeeds instead of failing with a
missing-tag error. -/
theorem c1_checkTag_missing_required_passes :
    RequiredDicomSegTags.map (fun t => checkTag [] t) =
      List.replicate 13 (Except.ok ()) := rfl

/-- C2 counterexample: on the scenario input — two frames at (0,0,0) and
(0,0,4), declared spacing (1,1,2), one segment with scalar display value 5,
every mask sample non-zero — the decode produces 2 output slices, not the 3
slices the claim states. -/
theorem c2_two_slices_not_three :
    resultSlices (create c2store c2pixels 10) = some 2 ∧ (2 : Nat) ≠ 3 :=
  ⟨congrArg Prod.fst c2eval, by decide⟩

/-- C2 amended: on the scenario input the decoder infers slice spacing 4
from the two positions' projections, overrides the declared third spacing
component with it, synthesizes no intermediate position, and produces a
volume of 2 slices in which every voxel holds the value 5. -/
theorem c2_amended_decode :
    resultSlices (create c2store c2pixels 10) = some 2 ∧
    resultBuffer (create c2store c2pixels 10) = some [5, 5] ∧
    resultSpacing (create c2store c2pixels 10) = some [1, 1, 4] :=
  ⟨congrArg Prod.fst c2eval, congrArg (fun p => p.2.1) c2eval,
   congrArg (fun p => p.2.2) c2eval⟩

/-- C4 counterexample: an input in which two frames carry differing
image-orientation 6-tuples — (1,0,0,0,1,0) and (0,1,0,1,0,0), permutations
of each other — decodes successfully into a volume instead of failing with
the multi-orientation error. -/
theorem c4_permuted_orientations_decode :
    resultErr (create c4store c4pixels 10) = none ∧
    resultSlices (create c4store c4pixels 10) = some 1 ∧
    c4orientA.map parseFloatD ≠ c4orientB.map parseFloatD := by
  refine ⟨congrArg Prod.fst c4eval, congrArg Prod.snd c4eval, ?_⟩
  simp [c4orientA, c4orientB, parseFloatD]

/-- C4 amended: a subsequent per-frame orientation is compared against the
reference orientation with order-insensitive (sorted multiset) equality:
a pair differing as multisets fails the frame scan with the
multi-orientation error, while any permutation of the reference is accepted
and the reference kept. -/
theorem c4_amended_multiset_orientation (o1 o2 : List DVal)
    (pos1 pos2 : List ℚ) (n1 n2 : DVal) (s0 : Option (List ℚ)) :
    (arraySortEquals o1 o2 = false →
      scanFrameInfos [⟨n1, pos1, some o1, none⟩, ⟨n2, pos2, some o2, none⟩]
        [] none s0 = .error .multiOrientation) ∧
    (arraySortEquals o1 o2 = true →
      scanFrameInfos [⟨n1, pos1, some o1, none⟩, ⟨n2, pos2, some o2, none⟩]
        [] none s0 =
        .ok (if pos2 ∈ [pos1] then [pos1] else [pos1, pos2], some o1, s0)) := by
  constructor
  · intro h
    simp [scanFrameInfos, h]
  · intro h
    by_cases hp : pos2 ∈ [pos1] <;> simp_all [scanFrameInfos]

/-- Witness for the C4 amended theorem: the multiset-differing pair fails
with the multi-orientation error, the permuted pair is accepted. -/
theorem c4_amended_witness :
    scanFrameInfos
      [⟨.num 1, [0, 0, 0], some c4orientA, none⟩,
       ⟨.num 1, [0, 0, 0], some c4orientC, none⟩] [] none none =
        .error .multiOrientation ∧
    scanFrameInfos
      [⟨.num 1, [0, 0, 0], some c4orientA, none⟩,
       ⟨.num 1, [0, 0, 0], some c4orientB, none⟩] [] none none =
        .ok ([[0, 0, 0]], some c4orientA, none) := by
  constructor
  · exact (c4_amended_multiset_orientation c4orientA c4orientC [0, 0, 0]
      [0, 0, 0] (.num 1) (.num 1) none).1
      (by norm_num [arraySortEquals, jsStrictEq, c4orientA, c4orientC,
        List.countP_cons])
  · have h := (c4_amended_multiset_orientation c4orientA c4orientB [0, 0, 0]
      [0, 0, 0] (.num 1) (.num 1) none).2
      (by norm_num [arraySortEquals, jsStrictEq, c4orientA, c4orientB,
        List.countP_cons])
    simpa using h

/-- C5 counterexample: an input containing a frame whose referenced segment
number (2) matches no entry of the segment sequence (which defines only
segment 1) decodes successfully and produces a volume when the frame's mask
samples are all zero, instead of failing with an unknown-segment-reference
error; the segment lookup that the merge performs is indeed empty. -/
theorem c5_unknown_reference_zero_mask_decodes :
    resultErr (create c5store c5pixelsZero 10) = none ∧
    resultSlices (create c5store c5pixelsZero 10) = some 1 ∧
    findSegment [⟨.num 1, some (.num 5), none⟩] (.num 2) = none := by
  refine ⟨congrArg Prod.fst c5evalZero,
    congrArg (fun p => p.2.1) c5evalZero, ?_⟩
  norm_num [findSegment, jsStrictEq]

/-- C5 amended: a frame whose referenced segment number resolves to no
segment is merged sample by sample: if every mask sample of the frame is
zero the merge leaves the buffer unchanged and the decode continues, and if
some mask sample is non-zero the merge fails by dereferencing the undefined
segment (a TypeError, not a dedicated unknown-segment-reference error). -/
theorem c5_amended_unknown_reference (storeAsRGB : Bool) (mul : ℤ)
    (pixelBuffer : List ℚ) (frameOffset sliceOffset : ℤ) (ls : List Nat)
    (buffer : List ℚ) :
    ((∀ l ∈ ls, listGetI pixelBuffer (frameOffset + l) = 0) →
      writeSamples storeAsRGB mul none pixelBuffer frameOffset sliceOffset
        ls buffer = .ok buffer) ∧
    ((∃ l ∈ ls, listGetI pixelBuffer (frameOffset + l) ≠ 0) →
      writeSamples storeAsRGB mul none pixelBuffer frameOffset sliceOffset
        ls buffer = .error (.typeError "frameSegment")) := by
  induction ls generalizing buffer with
  | nil => exact ⟨fun _ => rfl, fun h => absurd h (by simp)⟩
  | cons l rest ih =>
    constructor
    · intro h
      have hl := h l (by simp)
      have hrest : ∀ x ∈ rest, listGetI pixelBuffer (frameOffset + x) = 0 :=
        fun x hx => h x (by simp [hx])
      simp [writeSamples, writeSample, hl, (ih buffer).1 hrest]
    · intro h
      by_cases hl : listGetI pixelBuffer (frameOffset + l) = 0
      · have hrest : ∃ x ∈ rest, listGetI pixelBuffer (frameOffset + x) ≠ 0 := by
          rcases h with ⟨x, hx, hne⟩
          rcases List.mem_cons.mp hx with rfl | hx'
          · exact absurd hl hne
          · exact ⟨x, hx', hne⟩
        simp [writeSamples, writeSample, hl, (ih buffer).2 hrest]
      · simp [writeSamples, writeSample, hl]

/-- Witness for the C5 amended theorem at a concrete frame: the all-zero
mask leaves the buffer untouched, the non-zero mask raises the TypeError. -/
theorem c5_amended_witness :
    writeSamples false 1 none [0, 0] 0 0 [0, 1] [7, 7] = .ok [7, 7] ∧
    writeSamples false 1 none [3, 0] 0 0 [0, 1] [7, 7] =
      .error (.typeError "frameSegment") := by
  constructor
  · exact (c5_amended_unknown_reference false 1 [0, 0] 0 0 [0, 1] [7, 7]).1
      (by intro l hl; fin_cases hl <;> norm_num [listGetI])
  · exact (c5_amended_unknown_reference false 1 [3, 0] 0 0 [0, 1] [7, 7]).2
      ⟨0, by norm_num, by norm_num [listGetI]⟩

/-- C9 counterexample: the required-tag table does not contain exactly 12
entries. -/
theorem c9_not_twelve_entries : RequiredDicomSegTags.length ≠ 12 := by decide

/-- C9 amended: the table gating every decode contains 13 entries — the SOP
class appears twice (MediaStorageSOPClassUID and SOPClassUID, sharing the
tag key 00020002) — of which the 12 with requirement level "1" are
required; the exposed default projection maps each entry's name to the
first value of its accepted set. -/
theorem c9_amended_table :
    RequiredDicomSegTags.length = 13 ∧
    (RequiredDicomSegTags.filter
      (fun t => jsStrictEq t.type (.str "1"))).length = 12 ∧
    getDefaultDicomSegJson =
      [("TransferSyntaxUID", .str "1.2.840.10008.1.2.1"),
       ("MediaStorageSOPClassUID", .str "1.2.840.10008.5.1.4.1.1.66.4"),
       ("SOPClassUID", .str "1.2.840.10008.5.1.4.1.1.66.4"),
       ("Modality", .str "SEG"),
       ("SegmentationType", .str "BINARY"),
       ("DimensionOrganizationType", .str "3D"),
       ("ImageType", .arr [.str "DERIVED", .str "PRIMARY"]),
       ("SamplesPerPixel", .num 1),
       ("PhotometricInterpretation", .str "MONOCHROME2"),
       ("PixelRepresentation", .num 0),
       ("BitsAllocated", .num 1),
       ("BitsStored", .num 1),
       ("HighBit", .num 0)] :=
  ⟨rfl, rfl, rfl⟩

/-- C8 counterexample: on a matrix whose every column has a strictly
dominant axis above the threshold (first column (0.8, 0.6, 0), second
(0, 1, 0), third (0, 0, 1)), the derived code is "LPPS": the first column
contributes two letters, so the result is not one letter per column and has
length 4, not 3. -/
theorem c8_four_letter_code :
    getOrientationStringLPS ⟨4/5, 0, 0, 3/5, 1, 0, 0, 0, 1⟩ = "LPPS" ∧
    ("LPPS").length ≠ 3 ∧
    ((1 : ℚ)/10000 < 4/5 ∧ (3 : ℚ)/5 < 4/5 ∧ (0 : ℚ) < 4/5) ∧
    ((1 : ℚ)/10000 < 1 ∧ (0 : ℚ) < 1) := by
  refine ⟨?_, by decide, by norm_num, by norm_num⟩
  norm_num [getOrientationStringLPS, getVectorStringLPS, lpsLoop,
    abs_of_nonneg, abs_of_pos]
  rfl

/-- C8 amended: the orientation code is the concatenation, in column order,
of the per-column vector codes; each vector code is built by up to three
iterations, each appending the sign letter of the axis whose remaining
magnitude strictly exceeds the threshold and both other magnitudes, then
removing that axis; a tie or a sub-threshold maximum stops the column's
iteration, and a column with no strictly dominant axis contributes no
letter, so the full code need not have one letter per column. -/
theorem c8_amended_lps (v : Vector3D) :
    (∀ m : Matrix33, getOrientationStringLPS m =
        getVectorStringLPS ⟨m.m00, m.m10, m.m20⟩ ++
        getVectorStringLPS ⟨m.m01, m.m11, m.m21⟩ ++
        getVectorStringLPS ⟨m.m02, m.m12, m.m22⟩) ∧
    (1/10000 < |v.x| → |v.y| < |v.x| → |v.z| < |v.x| →
      ∃ rest, getVectorStringLPS v = (if v.x < 0 then "R" else "L") ++ rest) ∧
    (1/10000 < |v.y| → |v.x| < |v.y| → |v.z| < |v.y| →
      ∃ rest, getVectorStringLPS v = (if v.y < 0 then "A" else "P") ++ rest) ∧
    (1/10000 < |v.z| → |v.x| < |v.z| → |v.y| < |v.z| →
      ∃ rest, getVectorStringLPS v = (if v.z < 0 then "I" else "S") ++ rest) ∧
    (¬(1/10000 < |v.x| ∧ |v.y| < |v.x| ∧ |v.z| < |v.x|) →
     ¬(1/10000 < |v.y| ∧ |v.x| < |v.y| ∧ |v.z| < |v.y|) →
     ¬(1/10000 < |v.z| ∧ |v.x| < |v.z| ∧ |v.y| < |v.z|) →
      getVectorStringLPS v = "") := by
  refine ⟨fun m => rfl, ?_, ?_, ?_, ?_⟩
  · intro h1 h2 h3
    refine ⟨lpsLoop (if v.x < 0 then "R" else "L") (if v.y < 0 then "A" else "P")
      (if v.z < 0 then "I" else "S") 2 ⟨0, |v.y|, |v.z|⟩, ?_⟩
    show lpsLoop _ _ _ (2 + 1) _ = _
    rw [lpsLoop, if_pos]
    exact ⟨h1, h2, h3⟩
  · intro h1 h2 h3
    refine ⟨lpsLoop (if v.x < 0 then "R" else "L") (if v.y < 0 then "A" else "P")
      (if v.z < 0 then "I" else "S") 2 ⟨|v.x|, 0, |v.z|⟩, ?_⟩
    show lpsLoop _ _ _ (2 + 1) _ = _
    rw [lpsLoop, if_neg, if_pos]
    · exact ⟨h1, h2, h3⟩
    · rintro ⟨-, hxy, -⟩
      exact absurd h2 (not_lt.mpr (le_of_lt hxy))
  · intro h1 h2 h3
    refine ⟨lpsLoop (if v.x < 0 then "R" else "L") (if v.y < 0 then "A" else "P")
      (if v.z < 0 then "I" else "S") 2 ⟨|v.x|, |v.y|, 0⟩, ?_⟩
    show lpsLoop _ _ _ (2 + 1) _ = _
    rw [lpsLoop, if_neg, if_neg, if_pos]
    · exact ⟨h1, h2, h3⟩
    · rintro ⟨-, -, hyz⟩
      exact absurd h3 (not_lt.mpr (le_of_lt hyz))
    · rintro ⟨-, -, hxz⟩
      exact absurd h2 (not_lt.mpr (le_of_lt hxz))
  · intro h1 h2 h3
    show lpsLoop _ _ _ (2 + 1) _ = _
    rw [lpsLoop, if_neg h1, if_neg h2, if_neg h3]

/-- Witness for the C8 amended theorem: the vector (0, -1, 0) has a strictly
dominant negative y axis, so its code starts with the letter A. -/
theorem c8_amended_witness :
    ∃ rest, getVectorStringLPS ⟨0, -1, 0⟩ = "A" ++ rest := by
  have h := (c8_amended_lps ⟨0, -1, 0⟩).2.2.1 (by norm_num) (by norm_num)
    (by norm_num)
  simpa using h

/-- Tolerance equality of a matrix with itself holds for any positive
tolerance. -/
theorem matrix_equals_self (m : Matrix33) {p : ℚ} (hp : 0 < p) :
    m.equals m p = true := by
  simp [Matrix33.equals, isSimilar, hp]

/-- Equal matrices are tolerance-equal at any positive tolerance. -/
theorem matrix_equals_of_eq (a b : Matrix33) (h : a = b) (p : ℚ)
    (hp : 0 < p) : a.equals b p = true := by
  subst h
  exact matrix_equals_self a hp

/-- C6: for every 3x3 matrix with non-zero determinant, `getInverse()`
yields an inverse, and multiplying the matrix by it gives the identity under
tolerance-based equality at machine-epsilon tolerance. -/
theorem c6_inverse_multiply_identity (m : Matrix33) (h : matrixDet m ≠ 0) :
    ∃ inv, m.getInverse = some inv ∧
      (m.multiply inv).equals getIdentityMat33 numberEpsilon = true := by
  have hd : m.m00 * (m.m11 * m.m22 - m.m12 * m.m21) +
      m.m01 * (m.m12 * m.m20 - m.m10 * m.m22) +
      m.m02 * (m.m10 * m.m21 - m.m11 * m.m20) ≠ 0 := by
    simpa [matrixDet] using h
  simp only [Matrix33.getInverse, getMatrixInverse]
  rw [if_neg hd]
  refine ⟨_, rfl, matrix_equals_of_eq _ _ ?_ _ (by norm_num [numberEpsilon])⟩
  simp only [Matrix33.multiply, getIdentityMat33, Matrix33.mk.injEq]
  refine ⟨?_, ?_, ?_, ?_, ?_, ?_, ?_, ?_, ?_⟩ <;> field_simp <;> ring

/-- Witness for C6 at the concrete matrix diag(2, 1, 1), whose determinant
is 2. -/
theorem c6_witness :
    matrixDet ⟨2, 0, 0, 0, 1, 0, 0, 0, 1⟩ ≠ 0 ∧
    ∃ inv, Matrix33.getInverse ⟨2, 0, 0, 0, 1, 0, 0, 0, 1⟩ = some inv ∧
      (Matrix33.multiply ⟨2, 0, 0, 0, 1, 0, 0, 0, 1⟩ inv).equals
        getIdentityMat33 numberEpsilon = true :=
  ⟨by norm_num [matrixDet],
   c6_inverse_multiply_identity ⟨2, 0, 0, 0, 1, 0, 0, 0, 1⟩
     (by norm_num [matrixDet])⟩

/-- The squared distance of a point to itself is zero. -/
theorem distSq_self (p : Point3D) : distSq p p = 0 := by
  simp [distSq]

/-- Zero squared distance passes the small-distance test. -/
theorem isNotSmallSq_zero : isNotSmallSq 0 = false := by
  norm_num [isNotSmallSq, realWorldEpsilon]

/-- The gap-filling inner loop exits immediately when the initial squared
distance is already small. -/
theorem fillPairLoop_small (geo : Geometry) (F : Point3D) (dPrev : ℚ)
    (fuel k : Nat) (dSq : ℚ) (h : isNotSmallSq dSq = false) :
    fillPairLoop geo F dPrev fuel k dSq = pure ([], k, []) := by
  unfold fillPairLoop
  simp [h]

/-- Gap filling over positions that already sit exactly on the grid inserts
nothing: the auxiliary loop returns its input positions unchanged. -/
theorem fillGapsAux_uniform (geo : Geometry) (fuel : Nat) :
    ∀ (ps : List (List ℚ)) (k : Nat),
      (∀ j (hj : j < ps.length),
        point3DFromArray ps[j] = indexToWorldZ geo (k + 1 + j)) →
      fillGapsAux geo fuel (ps.zip (ps.map point3DFromArray)) k = .ok ps := by
  intro ps
  induction ps with
  | nil => intro k _; rfl
  | cons p rest ih =>
    intro k h
    have h0 : point3DFromArray p = indexToWorldZ geo (k + 1) := by
      simpa using h 0 (by simp)
    have hdist : distSq (point3DFromArray p) (indexToWorldZ geo (k + 1)) = 0 := by
      rw [h0]; exact distSq_self _
    have hrest : ∀ j (hj : j < rest.length),
        point3DFromArray rest[j] = indexToWorldZ geo ((k + 1) + 1 + j) := by
      intro j hj
      have := h (j + 1) (by simpa using Nat.succ_lt_succ hj)
      simpa [Nat.add_assoc, Nat.add_comm, Nat.add_left_comm] using this
    have ih' := ih (k + 1) hrest
    simp only [List.zip] at ih'
    simp [fillGapsAux, hdist, fillPairLoop_small, isNotSmallSq_zero, ih']

/-- C7: when the de-duplicated, sorted positions are already exactly one
slice-spacing step apart — every position lies exactly on the grid spanned
by the first position, the orientation normal and the (inferred) slice
spacing of the geometry — gap filling inserts zero synthetic positions: it
returns exactly the input position list, so the output slice count equals
the number of distinct input positions. -/
theorem c7_uniform_positions_no_insertion (geo : Geometry)
    (framePosPats : List (List ℚ)) (fuel : Nat)
    (hg : ∀ j (hj : j < framePosPats.length),
      point3DFromArray framePosPats[j] = indexToWorldZ geo j) :
    fillGaps geo framePosPats (framePosPats.map point3DFromArray) fuel =
      .ok framePosPats := by
  cases framePosPats with
  | nil => rfl
  | cons p0 rest =>
    have haux := fillGapsAux_uniform geo fuel rest 0 ?_
    · simp [fillGaps, haux]
    · intro j hj
      have hjj := hg (j + 1) (by simpa using Nat.succ_lt_succ hj)
      simpa [Nat.add_comm] using hjj

/-- Witness for C7: three positions spaced exactly one slice spacing (2)
apart along the normal of an axial geometry pass through gap filling
unchanged. -/
theorem c7_witness :
    fillGaps ⟨⟨0, 0, 0⟩, [1, 1, 1], [1, 1, 2], ⟨1, 0, 0, 0, 1, 0, 0, 0, 1⟩,
        [⟨0, 0, 0⟩]⟩
      [[0, 0, 0], [0, 0, 2], [0, 0, 4]]
      ([[0, 0, 0], [0, 0, 2], [0, 0, 4]].map point3DFromArray) 5 =
      .ok [[0, 0, 0], [0, 0, 2], [0, 0, 4]] := by
  apply c7_uniform_positions_no_insertion
  intro j hj
  simp only [List.length_cons, List.length_nil] at hj
  match j, hj with
  | 0, _ => norm_num [point3DFromArray, indexToWorldZ]
  | 1, _ => norm_num [point3DFromArray, indexToWorldZ]
  | 2, _ => norm_num [point3DFromArray, indexToWorldZ]

/-- The small-distance test succeeds exactly above the widest threshold,
`(REAL_WORLD_EPSILON * 100) ^ 2` on squares. -/
theorem isNotSmallSq_iff (v : ℚ) :
    isNotSmallSq v = true ↔ (realWorldEpsilon * 100) ^ 2 < v := by
  have hc1 : realWorldEpsilon ^ 2 ≤ (realWorldEpsilon * 100) ^ 2 := by
    norm_num [realWorldEpsilon]
  have hc2 : (realWorldEpsilon * 10) ^ 2 ≤ (realWorldEpsilon * 100) ^ 2 := by
    norm_num [realWorldEpsilon]
  unfold isNotSmallSq
  by_cases h1 : realWorldEpsilon ^ 2 < v
  · by_cases h2 : (realWorldEpsilon * 10) ^ 2 < v
    · by_cases h3 : (realWorldEpsilon * 100) ^ 2 < v
      · simp [h1, h2, h3]
      · simp [h1, h2, h3]
    · have h3 : ¬ (realWorldEpsilon * 100) ^ 2 < v := fun hh =>
        h2 (lt_of_le_of_lt hc2 hh)
      simp [h1, h2, h3]
  · have h3 : ¬ (realWorldEpsilon * 100) ^ 2 < v := fun hh =>
      h1 (lt_of_le_of_lt hc1 hh)
    simp [h1, h3]

/-- The small-distance test is monotone in the squared distance. -/
theorem isNotSmallSq_mono {a b : ℚ} (h : isNotSmallSq a = true) (hab : a ≤ b) :
    isNotSmallSq b = true := by
  rw [isNotSmallSq_iff] at h ⊢
  linarith

/-- One grid step of the gap walk has non-negative squared length. -/
theorem gapStepSq_nonneg (geo : Geometry) : 0 ≤ gapStepSq geo := by
  unfold gapStepSq distSq
  positivity

/-- The squared distance to the walk target is quadratic in the slice index:
its second difference is twice the squared step length. -/
theorem gapDelta_succ (geo : Geometry) (F : Point3D) (k : Nat) :
    gapDistSq geo F (k + 1 + 1) - gapDistSq geo F (k + 1) =
      (gapDistSq geo F (k + 1) - gapDistSq geo F k) + 2 * gapStepSq geo := by
  simp only [gapDistSq, gapStepSq, distSq, indexToWorldZ]
  push_cast
  ring

/-- Closed form of the first difference of the squared walk distance. -/
theorem gapDelta_mono (geo : Geometry) (F : Point3D) (k : Nat) :
    ∀ j : Nat, gapDistSq geo F (k + j + 1) - gapDistSq geo F (k + j) =
      (gapDistSq geo F (k + 1) - gapDistSq geo F k) + 2 * j * gapStepSq geo := by
  intro j
  induction j with
  | zero => push_cast; ring_nf
  | succ j ih =>
    have hs := gapDelta_succ geo F (k + j)
    rw [show k + (j + 1) + 1 = k + j + 1 + 1 from by omega,
        show k + (j + 1) = k + j + 1 from by omega]
    push_cast
    push_cast at ih
    linarith

/-- When a step fails to decrease the squared walk distance, later distances
grow at least quadratically. -/
theorem gapD_growth (geo : Geometry) (F : Point3D) (k : Nat)
    (hΔ : gapDistSq geo F k ≤ gapDistSq geo F (k + 1)) :
    ∀ m : Nat, gapDistSq geo F k + (m : ℚ) * ((m : ℚ) + 1) * gapStepSq geo ≤
      gapDistSq geo F (k + m + 1) := by
  intro m
  induction m with
  | zero => push_cast; simpa using hΔ
  | succ m ih =>
    have hd := gapDelta_mono geo F k (m + 1)
    have e1 : k + (m + 1) = k + m + 1 := by omega
    rw [e1] at hd
    have hstep := gapStepSq_nonneg geo
    rw [e1]
    push_cast at hd ih ⊢
    nlinarith [hd, ih, hΔ, hstep]

/-- Exhausted fuel aborts the loop while the distance is still large. -/
theorem fillPairLoop_zero (geo : Geometry) (F : Point3D) (t : ℚ) (k : Nat)
    (dSq : ℚ) (hth : isNotSmallSq dSq = true) :
    fillPairLoop geo F t 0 k dSq = .error .fuelExhausted := by
  unfold fillPairLoop
  simp [hth]

/-- A new squared distance exceeding the pre-loop distance aborts the decode
with the divergence error. -/
theorem fillPairLoop_throw (geo : Geometry) (F : Point3D) (t : ℚ)
    (fuel k : Nat) (dSq : ℚ) (hth : isNotSmallSq dSq = true)
    (hdiv : t < gapDistSq geo F (k + 1)) :
    fillPairLoop geo F t (fuel + 1) k dSq = .error .intermediatePosDivergence := by
  have hdiv' : t < distSq F (indexToWorldZ geo (k + 1)) := hdiv
  unfold fillPairLoop
  simp [hth, hdiv']

/-- A failing recursive call propagates its error through the loop step. -/
theorem fillPairLoop_cont_error (geo : Geometry) (F : Point3D) (t : ℚ)
    (fuel k : Nat) (dSq : ℚ) (hth : isNotSmallSq dSq = true)
    (hnd : ¬ t < gapDistSq geo F (k + 1)) (e : DecodeError)
    (hrec : fillPairLoop geo F t fuel (k + 1) (gapDistSq geo F (k + 1)) =
      .error e) :
    fillPairLoop geo F t (fuel + 1) k dSq = .error e := by
  have hnd' : ¬ t < distSq F (indexToWorldZ geo (k + 1)) := hnd
  have hrec' : fillPairLoop geo F t fuel (k + 1)
      (distSq F (indexToWorldZ geo (k + 1))) = .error e := hrec
  unfold fillPairLoop
  simp [hth, hnd', hrec']

/-- Inversion of a successful loop step: the step did not raise the distance
above the pre-loop value, the recursive call succeeded, and the recorded
distance trace starts with the new distance. -/
theorem fillPairLoop_ok_inv (geo : Geometry) (F : Point3D) (t : ℚ)
    (fuel k : Nat) (dSq : ℚ) (hth : isNotSmallSq dSq = true)
    (ps : List (List ℚ)) (kf : Nat) (ds : List ℚ)
    (hok : fillPairLoop geo F t (fuel + 1) k dSq = .ok (ps, kf, ds)) :
    ¬ t < gapDistSq geo F (k + 1) ∧
    ∃ ps' ds',
      fillPairLoop geo F t fuel (k + 1) (gapDistSq geo F (k + 1)) =
        .ok (ps', kf, ds') ∧
      ds = gapDistSq geo F (k + 1) :: ds' := by
  unfold fillPairLoop at hok
  simp only [hth, if_true] at hok
  by_cases hc : t < distSq F (indexToWorldZ geo (k + 1))
  · simp [hc] at hok
  · simp only [gt_iff_lt, hc, if_false] at hok
    refine ⟨hc, ?_⟩
    cases hrec : fillPairLoop geo F t fuel (k + 1)
        (distSq F (indexToWorldZ geo (k + 1))) with
    | error e => rw [hrec] at hok; simp at hok
    | ok a =>
      obtain ⟨ps', kf', ds'⟩ := a
      rw [hrec] at hok
      simp only [exceptOkBind, exceptPureEqOk, Except.ok.injEq,
        Prod.mk.injEq] at hok
      obtain ⟨h1, h2, h3⟩ := hok
      refine ⟨ps', ds', ?_, h3.symm⟩
      simp only [gapDistSq]
      rw [hrec, h2]

/-- If a step fails to decrease the squared distance while it is still above
the threshold, the loop can never finish successfully: the distance stays
above the threshold forever. -/
theorem fillPairLoop_not_ok (geo : Geometry) (F : Point3D) (t : ℚ) :
    ∀ fuel k, isNotSmallSq (gapDistSq geo F k) = true →
      gapDistSq geo F k ≤ gapDistSq geo F (k + 1) →
      ∀ res, fillPairLoop geo F t fuel k (gapDistSq geo F k) ≠ .ok res := by
  intro fuel
  induction fuel with
  | zero =>
    intro k hth _ res
    rw [fillPairLoop_zero geo F t k _ hth]
    simp
  | succ fuel ih =>
    intro k hth hd res hok
    obtain ⟨ps, kf, ds⟩ := res
    obtain ⟨-, ps', ds', hrec, -⟩ :=
      fillPairLoop_ok_inv geo F t fuel k _ hth ps kf ds hok
    have hth' : isNotSmallSq (gapDistSq geo F (k + 1)) = true :=
      isNotSmallSq_mono hth hd
    have hd' : gapDistSq geo F (k + 1) ≤ gapDistSq geo F (k + 1 + 1) := by
      have hdd := gapDelta_succ geo F k
      have hs := gapStepSq_nonneg geo
      linarith
    exact ih (k + 1) hth' hd' (ps', kf, ds') hrec

/-- Every successful run of the loop records strictly decreasing squared
distances, starting from the distance at the entry index. -/
theorem fillPairLoop_ok_decreasing (geo : Geometry) (F : Point3D) (t : ℚ) :
    ∀ fuel k ps kf ds,
      fillPairLoop geo F t fuel k (gapDistSq geo F k) = .ok (ps, kf, ds) →
      List.Chain' (fun a b => b < a) (gapDistSq geo F k :: ds) := by
  intro fuel
  induction fuel with
  | zero =>
    intro k ps kf ds hok
    by_cases hth : isNotSmallSq (gapDistSq geo F k) = true
    · rw [fillPairLoop_zero geo F t k _ hth] at hok
      exact absurd hok (by simp)
    · rw [fillPairLoop_small geo F t 0 k _ (by simpa using hth)] at hok
      simp only [exceptPureEqOk, Except.ok.injEq, Prod.mk.injEq] at hok
      obtain ⟨-, -, h3⟩ := hok
      rw [← h3]
      simp
  | succ fuel ih =>
    intro k ps kf ds hok
    by_cases hth : isNotSmallSq (gapDistSq geo F k) = true
    · obtain ⟨hnd, ps', ds', hrec, hds⟩ :=
        fillPairLoop_ok_inv geo F t fuel k _ hth ps kf ds hok
      subst hds
      have htail := ih (k + 1) ps' kf ds' hrec
      have hdec : gapDistSq geo F (k + 1) < gapDistSq geo F k := by
        by_contra hge
        push_neg at hge
        have hth' : isNotSmallSq (gapDistSq geo F (k + 1)) = true :=
          isNotSmallSq_mono hth hge
        have hd' : gapDistSq geo F (k + 1) ≤ gapDistSq geo F (k + 1 + 1) := by
          have hdd := gapDelta_succ geo F k
          have hs := gapStepSq_nonneg geo
          linarith
        exact fillPairLoop_not_ok geo F t fuel (k + 1) hth' hd'
          (ps', kf, ds') hrec
      exact List.chain'_cons.mpr ⟨hdec, htail⟩
    · rw [fillPairLoop_small geo F t (fuel + 1) k _ (by simpa using hth)] at hok
      simp only [exceptPureEqOk, Except.ok.injEq, Prod.mk.injEq] at hok
      obtain ⟨-, -, h3⟩ := hok
      rw [← h3]
      simp

/-- Once the walk distance exceeds the pre-loop distance within `m` further
steps and the current step is non-decreasing, any fuel above `m` ends in the
divergence error. -/
theorem fillPairLoop_big_diverges (geo : Geometry) (F : Point3D) (t : ℚ) :
    ∀ m k, isNotSmallSq (gapDistSq geo F k) = true →
      gapDistSq geo F k ≤ gapDistSq geo F (k + 1) →
      t < gapDistSq geo F (k + m + 1) →
      ∀ fuel, m < fuel →
        fillPairLoop geo F t fuel k (gapDistSq geo F k) =
          .error .intermediatePosDivergence := by
  intro m
  induction m with
  | zero =>
    intro k hth _ hbig fuel hf
    obtain ⟨fuel, rfl⟩ : ∃ f, fuel = f + 1 := ⟨fuel - 1, by omega⟩
    exact fillPairLoop_throw geo F t fuel k _ hth (by simpa using hbig)
  | succ m ih =>
    intro k hth hd hbig fuel hf
    obtain ⟨fuel, rfl⟩ : ∃ f, fuel = f + 1 := ⟨fuel - 1, by omega⟩
    by_cases hc : t < gapDistSq geo F (k + 1)
    · exact fillPairLoop_throw geo F t fuel k _ hth hc
    · have hth' : isNotSmallSq (gapDistSq geo F (k + 1)) = true :=
        isNotSmallSq_mono hth hd
      have hd' : gapDistSq geo F (k + 1) ≤ gapDistSq geo F (k + 1 + 1) := by
        have hdd := gapDelta_succ geo F k
        have hs := gapStepSq_nonneg geo
        linarith
      have hbig' : t < gapDistSq geo F (k + 1 + m + 1) := by
        rw [show k + 1 + m + 1 = k + (m + 1) + 1 from by omega]
        exact hbig
      exact fillPairLoop_cont_error geo F t fuel k _ hth hc _
        (ih (k + 1) hth' hd' hbig' fuel (by omega))

/-- A non-decreasing step reached after a descent from the entry index, with
the distance above the threshold all the way there and a non-degenerate grid
step, forces the divergence error for every sufficient fuel. -/
theorem fillPairLoop_fail_diverges (geo : Geometry) (F : Point3D)
    (hstep : 0 < gapStepSq geo) :
    ∀ d k0 t, gapDistSq geo F k0 ≤ t →
      (∀ j, k0 ≤ j → j ≤ k0 + d → isNotSmallSq (gapDistSq geo F j) = true) →
      gapDistSq geo F (k0 + d) ≤ gapDistSq geo F (k0 + d + 1) →
      ∃ m, ∀ fuel, m < fuel →
        fillPairLoop geo F t fuel k0 (gapDistSq geo F k0) =
          .error .intermediatePosDivergence := by
  intro d
  induction d with
  | zero =>
    intro k0 t hle habove hfail
    have hfail0 : gapDistSq geo F k0 ≤ gapDistSq geo F (k0 + 1) := by
      simpa using hfail
    have hth0 : isNotSmallSq (gapDistSq geo F k0) = true :=
      habove k0 le_rfl (by omega)
    obtain ⟨m, hm⟩ := exists_nat_gt ((t - gapDistSq geo F k0) / gapStepSq geo)
    have hmm : t - gapDistSq geo F k0 < (m : ℚ) * gapStepSq geo := by
      rwa [div_lt_iff₀ hstep] at hm
    have hg := gapD_growth geo F k0 hfail0 m
    have hsq : (0 : ℚ) ≤ (m : ℚ) * (m : ℚ) * gapStepSq geo := by positivity
    have hbig : t < gapDistSq geo F (k0 + m + 1) := by nlinarith [hg, hmm, hsq]
    exact ⟨m, fun fuel hf =>
      fillPairLoop_big_diverges geo F t m k0 hth0 hfail0 hbig fuel hf⟩
  | succ d ih =>
    intro k0 t hle habove hfail
    have hth0 : isNotSmallSq (gapDistSq geo F k0) = true :=
      habove k0 le_rfl (by omega)
    by_cases hc : t < gapDistSq geo F (k0 + 1)
    · refine ⟨0, fun fuel hf => ?_⟩
      obtain ⟨fuel, rfl⟩ : ∃ f, fuel = f + 1 := ⟨fuel - 1, by omega⟩
      exact fillPairLoop_throw geo F t fuel k0 _ hth0 hc
    · push_neg at hc
      have habove' : ∀ j, k0 + 1 ≤ j → j ≤ k0 + 1 + d →
          isNotSmallSq (gapDistSq geo F j) = true := by
        intro j h1 h2
        exact habove j (by omega) (by omega)
      have hfail' : gapDistSq geo F (k0 + 1 + d) ≤
          gapDistSq geo F (k0 + 1 + d + 1) := by
        have e1 : k0 + 1 + d = k0 + (d + 1) := by omega
        rw [e1]
        exact hfail
      obtain ⟨m', hm'⟩ := ih (k0 + 1) t hc habove' hfail'
      refine ⟨m' + 1, fun fuel hf => ?_⟩
      obtain ⟨fuel, rfl⟩ : ∃ f, fuel = f + 1 := ⟨fuel - 1, by omega⟩
      exact fillPairLoop_cont_error geo F t fuel k0 _ hth0 (not_lt.mpr hc) _
        (hm' fuel (by omega))

/-- C3, counterexample to the unconditional claim: with a zero grid step the
walk distance to the next real position is constant (here 1, above the
small-distance threshold), so a step never decreases it, the new distance
never exceeds the pre-loop distance, and the loop never raises
`IntermediatePositionDivergence`: it runs forever, exhausting every fuel
bound (the source loop has no bound, so the decode hangs instead of
failing). -/
theorem c3_zero_step_never_diverges :
    gapStepSq zeroStepGeo = 0
    ∧ gapDistSq zeroStepGeo ⟨1, 0, 0⟩ 1 ≤ gapDistSq zeroStepGeo ⟨1, 0, 0⟩ 2
    ∧ isNotSmallSq (gapDistSq zeroStepGeo ⟨1, 0, 0⟩ 1) = true
    ∧ (∀ fuel,
        fillPairLoop zeroStepGeo ⟨1, 0, 0⟩ (gapDistSq zeroStepGeo ⟨1, 0, 0⟩ 1)
            fuel 1 (gapDistSq zeroStepGeo ⟨1, 0, 0⟩ 1) =
          .error .fuelExhausted)
    ∧ (∀ fuel,
        fillPairLoop zeroStepGeo ⟨1, 0, 0⟩ (gapDistSq zeroStepGeo ⟨1, 0, 0⟩ 1)
            fuel 1 (gapDistSq zeroStepGeo ⟨1, 0, 0⟩ 1) ≠
          .error .intermediatePosDivergence) := by
  have hone : ∀ k, gapDistSq zeroStepGeo ⟨1, 0, 0⟩ k = 1 := by
    intro k
    norm_num [gapDistSq, distSq, indexToWorldZ, zeroStepGeo]
  have hth : isNotSmallSq (1 : ℚ) = true := by
    norm_num [isNotSmallSq, realWorldEpsilon]
  have hloop : ∀ fuel k, fillPairLoop zeroStepGeo ⟨1, 0, 0⟩ 1 fuel k 1 =
      .error .fuelExhausted := by
    intro fuel
    induction fuel with
    | zero => intro k; exact fillPairLoop_zero zeroStepGeo ⟨1, 0, 0⟩ 1 k 1 hth
    | succ fuel ih =>
      intro k
      have hnd : ¬ (1 : ℚ) < gapDistSq zeroStepGeo ⟨1, 0, 0⟩ (k + 1) := by
        rw [hone]
        norm_num
      have hrec : fillPairLoop zeroStepGeo ⟨1, 0, 0⟩ 1 fuel (k + 1)
          (gapDistSq zeroStepGeo ⟨1, 0, 0⟩ (k + 1)) = .error .fuelExhausted := by
        rw [hone]
        exact ih (k + 1)
      exact fillPairLoop_cont_error zeroStepGeo ⟨1, 0, 0⟩ 1 fuel k 1 hth hnd
        _ hrec
  refine ⟨by norm_num [gapStepSq, distSq, indexToWorldZ, zeroStepGeo],
    by rw [hone, hone], by rw [hone]; exact hth, ?_, ?_⟩
  · intro fuel
    rw [hone]
    exact hloop fuel 1
  · intro fuel
    rw [hone]
    rw [hloop fuel 1]
    simp

/-- C3, amended: during gap filling between one real position and the next, (a) every
successful run of the intermediate-position loop records strictly decreasing
squared distances to the next real position, step by step from the initial
distance, and (b) whenever the walk reaches a step that fails to decrease the
distance — with the distance above the small-distance threshold up to that
step and a non-degenerate grid step — the loop inevitably fails with
`IntermediatePositionDivergence` once given enough fuel. -/
theorem c3_gap_walk_monotone_or_diverges (geo : Geometry) (F : Point3D)
    (k0 : Nat) :
    (∀ fuel ps kf ds,
      fillPairLoop geo F (gapDistSq geo F k0) fuel k0 (gapDistSq geo F k0) =
        .ok (ps, kf, ds) →
      List.Chain' (fun a b => b < a) (gapDistSq geo F k0 :: ds))
    ∧ (0 < gapStepSq geo →
      ∀ i, k0 ≤ i →
        gapDistSq geo F i ≤ gapDistSq geo F (i + 1) →
        (∀ j, k0 ≤ j → j ≤ i → isNotSmallSq (gapDistSq geo F j) = true) →
        ∃ m, ∀ fuel, m < fuel →
          fillPairLoop geo F (gapDistSq geo F k0) fuel k0
              (gapDistSq geo F k0) =
            .error .intermediatePosDivergence) := by
  constructor
  · intro fuel ps kf ds hok
    exact fillPairLoop_ok_decreasing geo F (gapDistSq geo F k0) fuel k0
      ps kf ds hok
  · intro hstep i hki hfail habove
    obtain ⟨d, rfl⟩ : ∃ d, i = k0 + d := ⟨i - k0, by omega⟩
    exact fillPairLoop_fail_diverges geo F hstep d k0 (gapDistSq geo F k0)
      le_rfl habove hfail

/-- Witness for C3 on the unit axial geometry: (a) a target one slice past
the walk entry yields the successful trace with squared distances 1 then 0,
which is strictly decreasing; (b) a target halfway between two grid points
makes the first step non-decreasing and the loop is guaranteed to end in the
divergence error. -/
theorem c3_witness :
    (fillPairLoop gapGeo ⟨0, 0, 2⟩ (gapDistSq gapGeo ⟨0, 0, 2⟩ 1) 2 1
        (gapDistSq gapGeo ⟨0, 0, 2⟩ 1) = .ok ([[0, 0, 1]], 2, [0])
      ∧ List.Chain' (fun a b => b < a) (gapDistSq gapGeo ⟨0, 0, 2⟩ 1 :: [0]))
    ∧ (0 < gapStepSq gapGeo
      ∧ ∃ m, ∀ fuel, m < fuel →
          fillPairLoop gapGeo ⟨0, 0, 3/2⟩ (gapDistSq gapGeo ⟨0, 0, 3/2⟩ 1)
              fuel 1 (gapDistSq gapGeo ⟨0, 0, 3/2⟩ 1) =
            .error .intermediatePosDivergence) := by
  constructor
  · have hok : fillPairLoop gapGeo ⟨0, 0, 2⟩ (gapDistSq gapGeo ⟨0, 0, 2⟩ 1) 2 1
        (gapDistSq gapGeo ⟨0, 0, 2⟩ 1) = .ok ([[0, 0, 1]], 2, [0]) := by
      norm_num [fillPairLoop, gapGeo, gapDistSq, distSq, indexToWorldZ,
        isNotSmallSq, realWorldEpsilon]
    exact ⟨hok,
      (c3_gap_walk_monotone_or_diverges gapGeo ⟨0, 0, 2⟩ 1).1 2 _ _ _ hok⟩
  · have hstep : 0 < gapStepSq gapGeo := by
      norm_num [gapStepSq, gapGeo, distSq, indexToWorldZ]
    refine ⟨hstep,
      (c3_gap_walk_monotone_or_diverges gapGeo ⟨0, 0, 3/2⟩ 1).2 hstep 1
        le_rfl ?_ ?_⟩
    · norm_num [gapDistSq, gapGeo, distSq, indexToWorldZ]
    · intro j h1 h2
      have hj : j = 1 := le_antisymm h2 h1
      subst hj
      norm_num [isNotSmallSq, gapDistSq, gapGeo, distSq, indexToWorldZ,
        realWorldEpsilon]

/-- A typed-array write at one index leaves every other index unchanged. -/
theorem listGetI_setI_ne (l : List ℚ) (j i : ℤ) (v : ℚ) (h : j ≠ i) :
    listGetI (listSetI l j v) i = listGetI l i := by
  unfold listSetI listGetI
  by_cases hj : 0 ≤ j ∧ j < (l.length : ℤ)
  · simp only [if_pos hj, List.length_set]
    by_cases hi : 0 ≤ i ∧ i < (l.length : ℤ)
    · simp only [if_pos hi]
      have hne : j.toNat ≠ i.toNat := by omega
      have hilt : i.toNat < l.length := by omega
      rw [List.getD_eq_getElem _ _ (by simpa [List.length_set] using hilt),
        List.getD_eq_getElem _ _ hilt]
      exact List.getElem_set_ne hne _
    · simp [if_neg hi]
  · simp [if_neg hj]

/-- A single merge sample step preserves every buffer index that lies
outside the written channel range of its voxel, and any index at all when
the mask sample is zero. -/
theorem writeSample_preserves (storeAsRGB : Bool) (mul : ℤ)
    (hmul : mul = if storeAsRGB then 3 else 1) (oseg : Option Segment)
    (pix : List ℚ) (fo so : ℤ) (buf buf' : List ℚ) (l : Nat) (i : ℤ)
    (hout : listGetI pix (fo + l) = 0 ∨
      i < mul * (so + l) ∨ mul * (so + l) + mul ≤ i)
    (hrun : writeSample storeAsRGB mul oseg pix fo so buf l = .ok buf') :
    listGetI buf' i = listGetI buf i := by
  unfold writeSample at hrun
  by_cases hz : listGetI pix (fo + (l : ℤ)) = 0
  · simp [hz] at hrun
    subst hrun
    rfl
  · have hout' : i < mul * (so + l) ∨ mul * (so + l) + mul ≤ i := by
      rcases hout with h | h | h
      · exact absurd h hz
      · exact Or.inl h
      · exact Or.inr h
    simp only [hz, if_pos, ne_eq, not_false_iff, ite_true] at hrun
    match oseg, hrun with
    | some seg, hrun =>
      subst hmul
      cases storeAsRGB with
      | false =>
        simp only [Bool.false_eq_true, if_false] at hrun
        injection hrun with hrun
        subst hrun
        exact listGetI_setI_ne _ _ _ _ (by simp at hout' ⊢; omega)
      | true =>
        simp only [if_pos rfl] at hrun
        match hseg : seg.displayRGBValue, hrun with
        | some (r, g, b), hrun =>
          simp only [hseg] at hrun
          injection hrun with hrun
          subst hrun
          rw [listGetI_setI_ne _ _ _ _ (by simp at hout' ⊢; omega),
            listGetI_setI_ne _ _ _ _ (by simp at hout' ⊢; omega),
            listGetI_setI_ne _ _ _ _ (by simp at hout' ⊢; omega)]

/-- The per-frame sample fold preserves every buffer index that, for every
sample offset it visits, is either outside that sample's written channel
range or belongs to a sample whose mask value is zero. -/
theorem writeSamples_preserves (storeAsRGB : Bool) (mul : ℤ)
    (hmul : mul = if storeAsRGB then 3 else 1) (oseg : Option Segment)
    (pix : List ℚ) (fo so : ℤ) (i : ℤ) :
    ∀ (ls : List Nat) (buf res : List ℚ),
      (∀ l ∈ ls, listGetI pix (fo + l) = 0 ∨
        i < mul * (so + l) ∨ mul * (so + l) + mul ≤ i) →
      writeSamples storeAsRGB mul oseg pix fo so ls buf = .ok res →
      listGetI res i = listGetI buf i := by
  intro ls
  induction ls with
  | nil =>
    intro buf res _ hrun
    injection hrun with hrun
    subst hrun
    rfl
  | cons l rest ih =>
    intro buf res hout hrun
    unfold writeSamples at hrun
    match hstep : writeSample storeAsRGB mul oseg pix fo so buf l, hrun with
    | .ok buf1, hrun =>
      simp only [hstep, exceptOkBind] at hrun
      have h1 : listGetI buf1 i = listGetI buf i :=
        writeSample_preserves storeAsRGB mul hmul oseg pix fo so buf buf1 l i
          (hout l (by simp)) hstep
      have h2 := ih buf1 res (fun x hx => hout x (by simp [hx])) hrun
      rw [h2, h1]

/-- C10: during the merge of one frame, a sample whose mask value is zero
writes nothing: every channel of the corresponding output voxel is left
unchanged by the whole frame merge, so a later frame never erases another
frame's non-zero writes with zeros. -/
theorem c10_zero_sample_preserves (storeAsRGB : Bool) (mul : ℤ)
    (hmul : mul = if storeAsRGB then 3 else 1) (oseg : Option Segment)
    (pix : List ℚ) (fo so : ℤ) (sliceSize : Nat) (buffer res : List ℚ)
    (l : Nat) (hl : l < sliceSize) (hz : listGetI pix (fo + l) = 0)
    (c : ℤ) (hc0 : 0 ≤ c) (hc : c < mul)
    (hrun : mergeOneFrame storeAsRGB mul oseg pix fo so sliceSize buffer =
      .ok res) :
    listGetI res (mul * (so + l) + c) = listGetI buffer (mul * (so + l) + c) := by
  apply writeSamples_preserves storeAsRGB mul hmul oseg pix fo so
    (mul * (so + l) + c) (List.range sliceSize) buffer res ?_ hrun
  intro l' hl'
  by_cases he : l' = l
  · subst he
    exact Or.inl hz
  · subst hmul
    cases storeAsRGB with
    | false =>
      right
      simp only [Bool.false_eq_true, if_false] at hc ⊢
      have : (l' : ℤ) ≠ (l : ℤ) := by exact_mod_cast he
      omega
    | true =>
      right
      simp only [eq_self_iff_true, ite_true, if_true] at hc ⊢
      have : (l' : ℤ) ≠ (l : ℤ) := by exact_mod_cast he
      omega

/-- Witness for C10: a scalar-mode frame whose first sample is zero leaves
the first voxel of the output buffer unchanged while its second, non-zero
sample writes the display value. -/
theorem c10_witness :
    listGetI [7, 5] (1 * ((0 : ℤ) + 0) + 0) = listGetI [7, 8] (1 * ((0 : ℤ) + 0) + 0) := by
  apply c10_zero_sample_preserves false 1 (by norm_num) (some ⟨.num 1, some (.num 5), none⟩)
    [0, 1] 0 0 2 [7, 8] [7, 5] 0 (by norm_num) (by norm_num [listGetI]) 0
    (by norm_num) (by norm_num)
  norm_num [mergeOneFrame, writeSamples, writeSample, listGetI, listSetI,
    List.range_succ, parseFloatD]

end MedImg
